import Mathlib

/-!
# Admin console front end (`frontend/app.js`, `frontend/login.js`)

A shallow embedding of the browser-side console: the session guard
(`AuthManager`), the API gateway (`App.apiRequest`), the building cards and
their device lists, and the bulk-ignore modal.

Conventions of the embedding:

* DOM nodes are records holding exactly the attributes the scripts read or
  write (class list, `dataset` entries, `style.display`, `checked`, ...).
* An `async` function is a function of the outcomes of the requests it
  awaits; it returns the requests it issued, in order, with the state it
  leaves behind.
* Side effects that leave the page (redirects, timers, notifications,
  `fetch`) are recorded, in program order, in a list of `Effect`s.
-/

namespace AmazonDvc

/-! ## JavaScript primitives -/

/-- JS `String.prototype.toLowerCase` restricted to the ASCII letters: other
code points are left as they are. It is used only where the lowered string is
compared with the literal "armed", for which it is exact (no code point
outside ASCII lowers to one of its letters), and on ASCII text, where it is
the function itself. -/
def toLowerCase (s : String) : String := String.mk (s.data.map Char.toLower)

/-- JS `a || b` on strings that may be absent: the empty string, `null` and
`undefined` are falsy. -/
def strOr (a : Option String) (b : String) : String :=
  match a with
  | some s => if s = "" then b else s
  | none => b

/-- JS truthiness of a string that may be `null`. -/
def truthy (a : Option String) : Bool :=
  match a with
  | some s => s ≠ ""
  | none => false

/-- The white space and line terminator code points that `parseInt` and
`String.prototype.trim` strip. -/
def isJsWhiteSpace (c : Char) : Bool :=
  c.val = 0x09 || c.val = 0x0A || c.val = 0x0B || c.val = 0x0C || c.val = 0x0D ||
  c.val = 0x20 || c.val = 0xA0 || c.val = 0x1680 ||
  (0x2000 ≤ c.val && c.val ≤ 0x200A) ||
  c.val = 0x2028 || c.val = 0x2029 || c.val = 0x202F || c.val = 0x205F ||
  c.val = 0x3000 || c.val = 0xFEFF

/-- Value of a run of decimal digits, most significant first. -/
def digitsValue (ds : List Char) : Nat :=
  ds.foldl (fun acc c => acc * 10 + (c.toNat - 48)) 0

/-- The optional sign `parseInt` accepts: whether it is a minus, and the rest. -/
def splitSign (body : List Char) : Bool × List Char :=
  match body with
  | '-' :: r => (true, r)
  | '+' :: r => (false, r)
  | r => (false, r)

/-- JS `parseInt(s, 10)` on a list of characters: leading white space is
skipped, one sign is accepted, the longest run of decimal digits is read and
the rest ignored; `none` stands for `NaN` (no digit read). -/
def parseIntChars (cs : List Char) : Option Int :=
  let signed := splitSign (cs.dropWhile isJsWhiteSpace)
  let ds := signed.2.takeWhile Char.isDigit
  if ds.isEmpty then none
  else if signed.1 then some (-(digitsValue ds : Int)) else some (digitsValue ds : Int)

/-- JS `parseInt(s, 10)`. -/
def parseInt (s : String) : Option Int := parseIntChars s.data

/-- Decimal digits with the trailing zeros removed. -/
def stripTrailingZeros (ds : List Char) : List Char :=
  (ds.reverse.dropWhile (fun c => c = '0')).reverse

/-- The exponent notation of `Number::toString` for the decimal digits `ds` of
a positive integer: the first digit, then a point and the other significant
digits if there are any, then `e+` and the decimal exponent. -/
def exponentNotation (ds : List Char) : List Char :=
  match stripTrailingZeros ds with
  | [] => ds
  | [d] => d :: 'e' :: '+' :: Nat.toDigits 10 (ds.length - 1)
  | d :: rest => d :: '.' :: rest ++ 'e' :: '+' :: Nat.toDigits 10 (ds.length - 1)

/-- JS `String(k)` for a non-negative integer: plain decimal digits below
10^21, exponent notation from 10^21 on. -/
def naturalToString (k : Nat) : List Char :=
  if k < 10 ^ 21 then Nat.toDigits 10 k else exponentNotation (Nat.toDigits 10 k)

/-- JS `String(n)` for an integer-valued Number `n`, which is what a `dataset`
entry or a template literal stores for it. The Number is represented by the
integer that its shortest decimal form denotes (for a safe integer, the
number itself), so the digits printed are the digits of `n`. -/
def numberToString (n : Int) : String :=
  match n with
  | Int.ofNat k => String.mk (naturalToString k)
  | Int.negSucc k => String.mk ('-' :: naturalToString (k + 1))

/-- JS `s.startsWith(p)`. -/
def startsWith (s p : String) : Bool := p.data.isPrefixOf s.data

/-- JS `s.includes(q)`: `q` occurs in `s` as a contiguous run. -/
def includes (s q : String) : Bool := s.data.tails.any (fun t => q.data.isPrefixOf t)

/-- Upper-case hexadecimal digit of a value below 16. -/
def hexDigit (n : Nat) : Char :=
  if n < 10 then Char.ofNat (48 + n) else Char.ofNat (55 + n)

/-- The characters `encodeURIComponent` leaves as they are. -/
def isUriUnreserved (c : Char) : Bool :=
  c.isAlphanum || c = '-' || c = '_' || c = '.' || c = '!' || c = '~' || c = '*' ||
  c = Char.ofNat 39 || c = '(' || c = ')'

/-- JS `encodeURIComponent(s)`: every other character becomes the percent
escapes of its UTF-8 bytes. -/
def encodeURIComponent (s : String) : String :=
  String.mk (s.data.flatMap (fun c =>
    if isUriUnreserved c then [c]
    else (String.utf8EncodeChar c).flatMap (fun b =>
      ['%', hexDigit (b.toNat / 16), hexDigit (b.toNat % 16)])))

/-- JS `String.prototype.trim`. -/
def trim (s : String) : String :=
  String.mk ((s.data.dropWhile isJsWhiteSpace).reverse.dropWhile isJsWhiteSpace).reverse

/-! ## Data received from the server -/

/-- The `id` member of a device as JSON delivers it: a number or a string. -/
inductive JsId where
  | num (n : Int)
  | str (s : String)
  deriving DecidableEq, Repr

/-- JS `String(id)`, which is what a `dataset` entry stores. -/
def JsId.toStr : JsId → String
  | .num n => numberToString n
  | .str s => s

/-- A device ("proevent") object of a `devices?...` response. A member that is
`none` is `undefined` in the object. -/
structure Device where
  id : Option JsId
  name : Option String
  state : Option String
  is_ignored : Bool
  deriving DecidableEq, Repr

/-- A building object of the `buildings` response. -/
structure Building where
  id : Int
  name : String
  start_time : Option String
  deriving DecidableEq, Repr

/-! ## Building cards -/

/-- A child of a card's `ul.items-list`: a device row made by `createItem`, or
a placeholder `li.muted`. -/
structure Li where
  classList : List String
  itemId : Option String
  state : Option String
  stateClass : String
  stateColor : String
  text : String
  deriving DecidableEq, Repr

/-- The `<li class="muted">text</li>` placeholder written through `innerHTML`. -/
def mutedLi (text : String) : Li :=
  { classList := ["muted"], itemId := none, state := none,
    stateClass := "", stateColor := "", text := text }

/-- `App.createItem(item)`; an `item` that is `none` is a falsy array entry.
The row's `text` is the text of its `.device-name` element: the markup
`escapeHtml(name)` reads back as `name` itself. -/
def createItem (item : Option Device) : Option Li :=
  match item with
  | none => none
  | some item =>
    match item.id, item.name with
    | some id, some _ =>
      let state := toLowerCase (strOr item.state "unknown")
      let isArmed : Bool := state = "armed"
      some { classList := ["device-item"],
             itemId := some id.toStr,
             state := some state,
             stateClass := if isArmed then "status-all-armed" else "state-unknown",
             stateColor := if isArmed then "#ef4444" else "#22c55e",
             text := strOr item.name "" ++ " (ID: " ++ id.toStr ++ ")" ++
               (if item.is_ignored then " (Ignored)" else "") }
    | _, _ => none

/-- A building card as built by `createBuildingCard`: the template always
contains every element `setupBuildingCardEvents` looks up, so the card is the
record of their mutable attributes. -/
structure Card where
  buildingId : String
  bodyDisplay : String
  toggleText : String
  loaded : Option String
  children : List Li
  listDisplay : String
  loaderDisplay : String
  searchValue : String
  startTimeValue : String
  statusText : String
  statusClass : String
  deriving DecidableEq, Repr

/-- `App.createBuildingCard(building)`. -/
def createBuildingCard (building : Building) : Card :=
  { buildingId := numberToString building.id
    bodyDisplay := "none"
    toggleText := "+"
    loaded := none
    children := []
    listDisplay := ""
    loaderDisplay := "none"
    searchValue := ""
    startTimeValue := strOr building.start_time "20:00"
    statusText := ""
    statusClass := "building-status" }

/-- `card.querySelectorAll('.device-item')` over the rows of the card. -/
def deviceItems (card : Card) : List Li :=
  card.children.filter (fun li => li.classList.contains "device-item")

/-- `App.updateBuildingStatus(card)`. -/
def updateBuildingStatus (card : Card) : Card :=
  let items := deviceItems card
  let firstItemIsMuted : Bool :=
    match items with
    | [li] => li.classList.contains "muted"
    | _ => false
  if items.length = 0 || firstItemIsMuted then
    { card with statusText := "No ProEvents", statusClass := "building-status status-none-armed" }
  else
    let armedCount := (items.filter (fun d => d.state = some "armed")).length
    if armedCount = items.length then
      { card with statusText := "All Armed", statusClass := "building-status status-all-armed" }
    else if armedCount > 0 then
      { card with statusText := "Partially Armed",
                  statusClass := "building-status status-partial-armed" }
    else
      { card with statusText := "All Disarmed", statusClass := "building-status status-none-armed" }

/-! ## Session, storage and recorded effects -/

/-- The two `localStorage` keys the scripts use; `none` is an absent key
(`getItem` gives `null`). -/
structure Storage where
  adminToken : Option String
  adminUsername : Option String
  deriving DecidableEq, Repr

/-- The mutable fields of the `AuthManager` object. -/
structure Session where
  token : Option String
  username : Option String
  deriving DecidableEq, Repr

/-- One entry `{item_id, building_frk, device_prk, ignore}` of the bulk body. -/
structure UpdateItem where
  item_id : Int
  building_frk : Int
  device_prk : Int
  ignore : Bool
  deriving DecidableEq, Repr

/-- The value handed to `JSON.stringify` for a request body. -/
inductive Body where
  | bulk (items : List UpdateItem)
  | time (building_id : Option Int) (start_time : String)
  | login (username password : String)
  deriving DecidableEq, Repr

/-- A JS object used as a header map: keys in insertion order. -/
abbrev Headers := List (String × String)

/-- The assignment `o[k] = v`: an existing key keeps its place. -/
def Headers.set (o : Headers) (k v : String) : Headers :=
  if o.any (fun e => e.1 = k) then o.map (fun e => if e.1 = k then (k, v) else e)
  else o ++ [(k, v)]

/-- Object spread `{ ...a, ...b }`: the entries of `b` are assigned over `a`. -/
def Headers.spread (a b : Headers) : Headers :=
  b.foldl (fun acc e => Headers.set acc e.1 e.2) a

/-- The property read `o[k]`. -/
def Headers.get (o : Headers) (k : String) : Option String :=
  (o.find? (fun e => e.1 = k)).map Prod.snd

/-- The `options` argument of `apiRequest`; an absent member is `none` (for
`headers`, the empty object, which spreads to the same thing). -/
structure Options where
  method : Option String
  headers : Headers
  body : Option Body
  deriving DecidableEq, Repr

/-- The default `options = {}`. -/
def Options.empty : Options := { method := none, headers := [], body := none }

/-- What reaches `fetch(url, init)`. -/
structure Request where
  url : String
  method : Option String
  headers : Headers
  body : Option Body
  deriving DecidableEq, Repr

/-- The callbacks the scripts hand to `setTimeout`. -/
inductive TimerTask where
  | clearAuthAndRedirect
  | hideNotification
  | loginRedirect
  | hideLoginMessage
  deriving DecidableEq, Repr

/-- An observable action, recorded in program order. `showNotification` is a
call of `App.showNotification(text, isError)`; `clearAuth` is a call of
`AuthManager.clearAuth()`; `redirect` is `window.location.replace(path)`. -/
inductive Effect where
  | loader (display : String)
  | fetch (req : Request)
  | showNotification (text : String) (isError : Bool)
  | setTimeout (task : TimerTask) (ms : Nat)
  | clearAuth
  | redirect (path : String)
  deriving DecidableEq, Repr

/-- A parsed JSON body. `null` is the JSON value `null`; otherwise `detail`
is the string form of the body's `detail` member (`none` when it is absent or
a falsy value other than the empty string) and `payload` is the value
itself. -/
inductive Json (α : Type) where
  | null
  | value (detail : Option String) (payload : α)
  deriving DecidableEq, Repr

/-- An HTTP response as the scripts inspect it: `json` is what
`response.json()` settles to, an error message when it rejects. -/
structure Response (α : Type) where
  status : Nat
  contentType : Option String
  json : Except String (Json α)

/-- `response.ok`. -/
def Response.ok {α : Type} (r : Response α) : Bool := 200 ≤ r.status && r.status ≤ 299

/-- How a `fetch` promise settles. -/
inductive FetchOutcome (α : Type) where
  | networkError (message : String)
  | response (r : Response α)

/-- What `apiRequest` resolves to: the parsed body, or the literal `{}`. -/
inductive ApiValue (α : Type) where
  | parsed (j : Json α)
  | emptyObject
  deriving DecidableEq, Repr

/-- The elements of the page that may be missing when `apiRequest` runs. -/
structure Elements where
  loader : Bool
  deriving DecidableEq, Repr

/-- One run of `apiRequest`: the request sent, the effects in program order
and the settled value (`Except.error m` is a rejection with message `m`). -/
structure ApiRun (α : Type) where
  request : Request
  effects : List Effect
  result : Except String (ApiValue α)

/-- `App.API_BASE_URL`. -/
def API_BASE_URL : String := "http://127.0.0.1:7070/api"

/-- The header object `apiRequest` builds before the `try` block. -/
def apiHeaders (auth : Session) (endpoint : String) (options : Options) : Headers :=
  let headers := Headers.spread [("Content-Type", "application/json")] options.headers
  match auth.token with
  | some token =>
    if startsWith endpoint "admin/" && token ≠ "" then
      Headers.set headers "Authorization" ("Bearer " ++ token)
    else headers
  | none => headers

/-- The body of the `try` block of `apiRequest` after `fetch` has settled:
the effects it adds and the value it returns or the message it throws. -/
def apiTry {α : Type} (outcome : FetchOutcome α) : List Effect × Except String (ApiValue α) :=
  match outcome with
  | .networkError m => ([], .error m)
  | .response r =>
    if r.status = 401 then
      ([.showNotification "Session expired. Please login again." true,
        .setTimeout .clearAuthAndRedirect 2000], .error "Unauthorized")
    else if !r.ok then
      match r.json with
      | .error _ => ([], .error ("Request failed with status " ++ toString r.status))
      | .ok .null => ([], .error "Cannot read properties of null (reading 'detail')")
      | .ok (.value detail _) =>
        ([], .error (strOr detail ("Request failed: " ++ toString r.status)))
    else
      match r.contentType with
      | some ct =>
        if ct ≠ "" && includes ct "application/json" then
          match r.json with
          | .error m => ([], .error m)
          | .ok j => ([], .ok (.parsed j))
        else ([], .ok .emptyObject)
      | none => ([], .ok .emptyObject)

/-- The arguments `apiRequest` hands to `fetch`: the joined URL and
`{ ...options, headers }`. -/
def apiFetchArgs (auth : Session) (endpoint : String) (options : Options) : Request :=
  { url := API_BASE_URL ++ "/" ++ endpoint
    method := options.method
    headers := apiHeaders auth endpoint options
    body := options.body }

/-- `App.apiRequest(endpoint, options)`, given how the `fetch` settles. -/
def apiRequest {α : Type} (els : Elements) (auth : Session) (endpoint : String)
    (options : Options) (outcome : FetchOutcome α) : ApiRun α :=
  let request : Request := apiFetchArgs auth endpoint options
  let loaderFx (d : String) : List Effect := if els.loader then [.loader d] else []
  let (tried, result) := apiTry outcome
  let caught : List Effect :=
    match result with
    | .error m => [.showNotification (strOr (some m) "An unexpected error occurred") true]
    | .ok _ => []
  { request := request
    effects := loaderFx "block" ++ [.fetch request] ++ tried ++ caught ++ loaderFx "none"
    result := result }

/-! ## Session guard (`AuthManager`) -/

/-- The state `AuthManager` works on: storage, its own fields, the current
path and the effects recorded so far. -/
structure Browser where
  storage : Storage
  auth : Session
  pathname : String
  effects : List Effect
  deriving DecidableEq, Repr

/-- `AuthManager.clearAuth()`. -/
def AuthManager.clearAuth (b : Browser) : Browser :=
  { b with
    storage := { adminToken := none, adminUsername := none }
    auth := { token := none, username := none }
    effects := b.effects ++ [.clearAuth] }

/-- `window.location.replace(path)`. -/
def Browser.replace (b : Browser) (path : String) : Browser :=
  { b with effects := b.effects ++ [.redirect path] }

/-- The request `AuthManager.verifyToken()` sends for a token. -/
def verifyRequest (token : String) : Request :=
  { url := "http://127.0.0.1:7070/api/admin/queries"
    method := none
    headers := [("Authorization", "Bearer " ++ token)]
    body := none }

/-- `AuthManager.verifyToken()`: the request it starts before its first
`await` (none when it throws "No token" at once) and how the promise settles
given the outcome of that request. -/
def AuthManager.verifyToken {α : Type} (auth : Session) (outcome : FetchOutcome α) :
    Option Request × Except String Bool :=
  match auth.token with
  | none => (none, .error "No token")
  | some token =>
    if token = "" then (none, .error "No token")
    else
      (some (verifyRequest token),
        match outcome with
        | .networkError m => .error m
        | .response r => if !r.ok then .error "Token verification failed" else .ok true)

/-- One run of `AuthManager.init()`: the value it returns, the state at the
moment it returns, and the state once the verification promise it may have
started has settled and its `catch` callback has run. -/
structure InitRun where
  result : Bool
  started : Browser
  settled : Browser
  deriving DecidableEq, Repr

/-- `AuthManager.init()`, given how the verification request would settle. -/
def AuthManager.init {α : Type} (b : Browser) (outcome : FetchOutcome α) : InitRun :=
  let b1 : Browser :=
    { b with auth := { token := b.storage.adminToken, username := b.storage.adminUsername } }
  if !truthy b1.auth.token && b1.pathname ≠ "/login" then
    let b2 := b1.replace "/login"
    { result := false, started := b2, settled := b2 }
  else if truthy b1.auth.token && b1.pathname ≠ "/login" then
    let (req, settles) := AuthManager.verifyToken b1.auth outcome
    let b2 : Browser := { b1 with effects := b1.effects ++ (req.toList.map Effect.fetch) }
    { result := true
      started := b2
      settled :=
        match settles with
        | .error _ => (AuthManager.clearAuth b2).replace "/login"
        | .ok _ => b2 }
  else
    { result := true, started := b1, settled := b1 }

/-- `AuthManager.logout()`; `confirmed` is the answer to the `confirm` prompt. -/
def AuthManager.logout (b : Browser) (confirmed : Bool) : Browser :=
  if confirmed then (AuthManager.clearAuth b).replace "/login" else b

/-- The callback `apiRequest` schedules on a 401 response. -/
def runClearAuthAndRedirect (b : Browser) : Browser :=
  (AuthManager.clearAuth b).replace "/login"

/-! ## Login page (`login.js`) -/

/-- The members of the login response the page stores, in the string form
`localStorage.setItem` gives them. -/
structure LoginData where
  access_token : String
  username : String
  deriving DecidableEq, Repr

/-- The login page: storage, the submit button, the message box and the
effects recorded so far. -/
structure LoginPage where
  storage : Storage
  buttonDisabled : Bool
  buttonText : String
  messageText : String
  messageIsError : Bool
  messageShown : Bool
  effects : List Effect
  deriving DecidableEq, Repr

/-- `showError(message, isError)` of the login page. -/
def showError (p : LoginPage) (message : String) (isError : Bool) : LoginPage :=
  { p with
    messageText := message
    messageIsError := isError
    messageShown := true
    effects := p.effects ++ [.setTimeout .hideLoginMessage 5000] }

/-- The two `localStorage.removeItem` calls of the login page. -/
def LoginPage.removeStored (p : LoginPage) : LoginPage :=
  { p with storage := { adminToken := none, adminUsername := none } }

/-- `verifyTokenAndRedirect(token)`, given how its request settles. -/
def verifyTokenAndRedirect {α : Type} (p : LoginPage) (token : String)
    (outcome : FetchOutcome α) : LoginPage :=
  let p1 : LoginPage := { p with effects := p.effects ++ [.fetch (verifyRequest token)] }
  match outcome with
  | .networkError _ => p1.removeStored
  | .response r =>
    if r.ok then { p1 with effects := p1.effects ++ [.redirect "/"] }
    else p1.removeStored

/-- The stored-token check of the login page's `DOMContentLoaded` callback. -/
def loginPageLoaded {α : Type} (p : LoginPage) (outcome : FetchOutcome α) : LoginPage :=
  match p.storage.adminToken with
  | some token => if token = "" then p else verifyTokenAndRedirect p token outcome
  | none => p

/-- The `catch` block of `handleLogin`. -/
def handleLoginCatch (p : LoginPage) : LoginPage :=
  { showError p "Connection error. Please check if the server is running." true with
    buttonDisabled := false, buttonText := "Login" }

/-- `handleLogin(event)` with the values of the two inputs, given how the
login request settles. -/
def handleLogin (p : LoginPage) (username password : String)
    (outcome : FetchOutcome LoginData) : LoginPage :=
  let request : Request :=
    { url := "http://127.0.0.1:7070/api/admin/login"
      method := some "POST"
      headers := [("Content-Type", "application/json")]
      body := some (.login username password) }
  let p1 : LoginPage :=
    { p with
      buttonDisabled := true, buttonText := "Logging in...", messageShown := false
      effects := p.effects ++ [.fetch request] }
  match outcome with
  | .networkError _ => handleLoginCatch p1
  | .response r =>
    match r.json with
    | .error _ => handleLoginCatch p1
    | .ok .null => handleLoginCatch p1
    | .ok (.value detail data) =>
      if r.ok then
        let p2 : LoginPage :=
          { p1 with storage := { adminToken := some data.access_token
                                 adminUsername := some data.username } }
        let p3 := showError p2 "Login successful! Redirecting..." false
        { p3 with effects := p3.effects ++ [.setTimeout .loginRedirect 500] }
      else
        { showError p1 (strOr detail "Invalid credentials. Please try again.") true with
          buttonDisabled := false, buttonText := "Login" }

/-! ## Device lists of building cards -/

/-- The array a caller of `apiRequest` iterates over; an error when the value
is `null` or the empty object, on which `.length` or `.forEach` throws. -/
def asArray {α : Type} (v : ApiValue (List α)) : Except String (List α) :=
  match v with
  | .parsed (.value _ l) => .ok l
  | .parsed .null => .error "Cannot read properties of null (reading 'length')"
  | .emptyObject => .error "items.forEach is not a function"

/-- `App.BUILD_PAGE_SIZE`. -/
def BUILD_PAGE_SIZE : Nat := 100

/-- The endpoint `loadItemsForBuilding` requests. -/
def devicesEndpoint (buildingId search : String) : String :=
  "devices?building=" ++ buildingId ++ "&limit=" ++ toString BUILD_PAGE_SIZE ++
    "&search=" ++ encodeURIComponent search

/-- One run of `loadItemsForBuilding`: the card it leaves, the requests and
effects of its `apiRequest` call, and the message of the error it rethrows. -/
structure LoadRun where
  card : Card
  requests : List Request
  effects : List Effect
  threw : Option String
  deriving DecidableEq, Repr

/-- `App.loadItemsForBuilding(card, reset, search)`, given how the device
fetch settles. -/
def loadItemsForBuilding (els : Elements) (auth : Session) (card : Card) (reset : Bool)
    (search : String) (outcome : FetchOutcome (List (Option Device))) : LoadRun :=
  let c1 : Card := if reset then { card with children := [] } else card
  let c2 : Card := { c1 with loaderDisplay := "block", listDisplay := "none" }
  let run := apiRequest els auth (devicesEndpoint card.buildingId search) Options.empty outcome
  let failed (m : String) : Card × Option String :=
    ({ c2 with children := [mutedLi "Error loading proevents. Please try again."] }, some m)
  let (c3, threw) : Card × Option String :=
    match run.result with
    | .error m => failed m
    | .ok v =>
      match asArray v with
      | .error m => failed m
      | .ok items =>
        if items.length = 0 then
          ({ c2 with children :=
              [mutedLi (if search ≠ "" then "No proevents found matching search."
                        else "No proevents found.")] }, none)
        else ({ c2 with children := items.filterMap createItem }, none)
  { card := updateBuildingStatus { c3 with loaderDisplay := "none", listDisplay := "" }
    requests := [run.request]
    effects := run.effects
    threw := threw }

/-- The test of `toggleVisibility` that decides whether to fetch. -/
def needsLoad (card : Card) : Bool :=
  !truthy card.loaded || card.children.length = 0 ||
    (match card.children with
     | li :: _ => li.classList.contains "muted"
     | [] => false)

/-- One run of a card handler: the card it leaves with the requests and
effects it caused. -/
structure CardRun where
  card : Card
  requests : List Request
  effects : List Effect
  deriving DecidableEq, Repr

/-- The `toggleVisibility` closure of `setupBuildingCardEvents`, given how the
device fetch settles should it be made. -/
def toggleVisibility (els : Elements) (auth : Session) (card : Card)
    (outcome : FetchOutcome (List (Option Device))) : CardRun :=
  if card.bodyDisplay = "none" then
    if needsLoad card then
      let run := loadItemsForBuilding els auth card false "" outcome
      match run.threw with
      | none =>
        { card := { run.card with loaded := some "true", bodyDisplay := "block",
                                  toggleText := "-" }
          requests := run.requests, effects := run.effects }
      | some _ =>
        { card := { run.card with children := [mutedLi "Error loading proevents."],
                                  bodyDisplay := "block", toggleText := "-",
                                  loaded := some "false" }
          requests := run.requests, effects := run.effects }
    else
      { card := { card with bodyDisplay := "block", toggleText := "-" }
        requests := [], effects := [] }
  else
    { card := { card with bodyDisplay := "none", toggleText := "+" }
      requests := [], effects := [] }

/-- The cards `loadAllBuildings` appends for a fetched building array. -/
def renderBuildings (buildings : List Building) : List Card :=
  buildings.map createBuildingCard

/-! ## Bulk-ignore modal -/

/-- A `div.device-item` of the modal list: its three `dataset` entries, the
text of its `.device-name`, its `style.display` and its checkbox. -/
structure ModalRow where
  itemId : String
  buildingFrk : String
  devicePrk : String
  nameText : String
  display : String
  checked : Bool
  deriving DecidableEq, Repr

/-- What one call of `showIgnoreSelectionModal` closes over: a number that
tells its closures from those of other calls, the `buildingId` argument and
`allModalItems.length` (`none` when the variable holds a value without a
numeric `length`). -/
structure Invocation where
  id : Nat
  buildingId : String
  allModalItemsLength : Option Nat
  deriving DecidableEq, Repr

/-- The modal elements: visibility, list content, controls, and for each
button the registered click listeners with its `__currentClickHandler__`. -/
structure Modal where
  display : String
  title : String
  listMessage : Option String
  rows : List ModalRow
  searchValue : String
  selectAllText : String
  confirmDisabled : Bool
  cancelDisabled : Bool
  searchHandler : Option Invocation
  selectAllHandler : Option Invocation
  confirmListeners : List Invocation
  confirmCurrent : Option Invocation
  cancelListeners : List Invocation
  cancelCurrent : Option Invocation
  closeListeners : List Invocation
  closeCurrent : Option Invocation
  deriving DecidableEq, Repr

/-- The modal of a freshly loaded page: hidden, empty, nothing bound. -/
def Modal.initial : Modal :=
  { display := "none", title := "", listMessage := none, rows := [], searchValue := ""
    selectAllText := "Select All", confirmDisabled := false, cancelDisabled := false
    searchHandler := none, selectAllHandler := none
    confirmListeners := [], confirmCurrent := none
    cancelListeners := [], cancelCurrent := none
    closeListeners := [], closeCurrent := none }

/-- `target.addEventListener('click', h)`: a listener already registered is
not added again. -/
def addListener (ls : List Invocation) (h : Invocation) : List Invocation :=
  if ls.contains h then ls else ls ++ [h]

/-- `target.removeEventListener('click', h)` for the handler stored in
`__currentClickHandler__`, when there is one. -/
def removeCurrent (ls : List Invocation) (current : Option Invocation) : List Invocation :=
  match current with
  | some h => ls.filter (fun l => l ≠ h)
  | none => ls

/-- The row `showIgnoreSelectionModal` renders for an array entry, if any. -/
def createModalRow (buildingId : String) (item : Option Device) : Option ModalRow :=
  match item with
  | none => none
  | some item =>
    match item.id, item.name with
    | some id, some _ =>
      some { itemId := id.toStr
             buildingFrk := buildingId
             devicePrk := id.toStr
             nameText := strOr item.name "" ++ " (ID: " ++ id.toStr ++ ")"
             display := ""
             checked := item.is_ignored }
    | _, _ => none

/-- The `isVisible` test of the filter for a lower-cased query. `lower` is
`String.prototype.toLowerCase`: its Unicode case tables are not part of the
repository, so the function is an argument of the model. -/
def rowMatches (lower : String → String) (query : String) (r : ModalRow) : Bool :=
  includes (lower r.nameText) query

/-- The `modalSearch.oninput` handler, run with the value of the search box;
`lower` is `String.prototype.toLowerCase`. -/
def modalSearchInput (lower : String → String) (m : Modal) (value : String) : Modal :=
  let query := lower value
  let rows := m.rows.map (fun r =>
    { r with display := if rowMatches lower query r then "flex" else "none" })
  let visible := m.rows.filter (rowMatches lower query)
  let allVisibleChecked := visible.all (fun r => r.checked)
  let visibleCount := visible.length
  { m with
    searchValue := value
    rows := rows
    selectAllText := if allVisibleChecked && visibleCount > 0 then "Deselect All"
                     else "Select All" }

/-- The `modalSelectAllBtn.onclick` handler. -/
def modalSelectAllClick (m : Modal) : Modal :=
  let isSelectAll : Bool := m.selectAllText = "Select All"
  { m with
    rows := m.rows.map (fun r => if r.display ≠ "none" then { r with checked := isSelectAll } else r)
    selectAllText := if isSelectAll then "Deselect All" else "Select All" }

/-- The `closeModal` closure. -/
def closeModal (m : Modal) : Modal :=
  { m with
    display := "none"
    searchHandler := none
    selectAllHandler := none
    confirmListeners := removeCurrent m.confirmListeners m.confirmCurrent
    confirmCurrent := none
    confirmDisabled := false
    cancelListeners := removeCurrent m.cancelListeners m.cancelCurrent
    cancelCurrent := none
    cancelDisabled := false
    closeListeners := removeCurrent m.closeListeners m.closeCurrent
    closeCurrent := none
    listMessage := none
    rows := [] }

/-- One run of `showIgnoreSelectionModal`. -/
structure ModalRun where
  modal : Modal
  requests : List Request
  effects : List Effect
  deriving DecidableEq, Repr

/-- `App.showIgnoreSelectionModal(buildingId)` run to completion as call number
`k` on a page that holds all the modal elements, given how the device fetch
settles. The second component is what the closures of this call capture. -/
def showIgnoreSelectionModal (els : Elements) (auth : Session) (k : Nat) (buildingId : String)
    (m : Modal) (outcome : FetchOutcome (List (Option Device))) : ModalRun × Invocation :=
  let m1 : Modal :=
    { m with
      title := "Select ProEvents to Ignore on Disarm"
      listMessage := some "Loading...", rows := []
      display := "block"
      searchValue := "", selectAllText := "Select All"
      confirmDisabled := true, cancelDisabled := false
      confirmListeners := removeCurrent m.confirmListeners m.confirmCurrent
      cancelListeners := removeCurrent m.cancelListeners m.cancelCurrent
      closeListeners := removeCurrent m.closeListeners m.closeCurrent
      searchHandler := none, selectAllHandler := none }
  let run := apiRequest els auth ("devices?building=" ++ buildingId ++ "&limit=10000")
    Options.empty outcome
  let failed (len : Option Nat) : Modal × Option Nat :=
    ({ m1 with listMessage := some "Error loading proevents. Please try again.", rows := [] }, len)
  let (m2, len) : Modal × Option Nat :=
    match run.result with
    | .error _ => failed (some 0)
    | .ok (.parsed .null) => failed none
    | .ok .emptyObject => failed none
    | .ok (.parsed (.value _ items)) =>
      if items.length = 0 then
        ({ m1 with listMessage := some "No proevents found in this building.", rows := [] },
          some 0)
      else
        ({ m1 with listMessage := none, rows := items.filterMap (createModalRow buildingId)
                   confirmDisabled := false }, some items.length)
  let inv : Invocation := { id := k, buildingId := buildingId, allModalItemsLength := len }
  let m3 : Modal :=
    { m2 with
      searchHandler := some inv, selectAllHandler := some inv
      confirmCurrent := some inv
      confirmListeners := addListener (addListener m2.confirmListeners inv) inv
      cancelCurrent := some inv, cancelListeners := addListener m2.cancelListeners inv
      closeCurrent := some inv, closeListeners := addListener m2.closeListeners inv }
  ({ modal := m3, requests := [run.request], effects := run.effects }, inv)

/-- The update items `confirmHandler` collects from the rendered rows. -/
def collectItems (rows : List ModalRow) : List UpdateItem :=
  rows.filterMap (fun r =>
    match parseInt r.itemId, parseInt r.buildingFrk, parseInt r.devicePrk with
    | some itemId, some buildingFrk, some devicePrk =>
      some { item_id := itemId, building_frk := buildingFrk, device_prk := devicePrk
             ignore := r.checked }
    | _, _, _ => none)

/-- One run of `confirmHandler`: the modal and the building card it leaves
(`none` when the page holds no card for the building), with the requests and
effects in program order. -/
structure ConfirmRun where
  modal : Modal
  card : Option Card
  requests : List Request
  effects : List Effect
  deriving DecidableEq, Repr

/-- The options of the bulk request. -/
def bulkOptions (items : List UpdateItem) : Options :=
  { method := some "POST"
    headers := [("Content-Type", "application/json")]
    body := some (.bulk items) }

/-- The options of the re-evaluate request. -/
def reevaluateOptions : Options := { method := some "POST", headers := [], body := none }

/-- The endpoint of the re-evaluate request. -/
def reevaluateEndpoint (buildingId : String) : String :=
  "buildings/" ++ buildingId ++ "/reevaluate"

/-- The `confirmHandler` closure of call `inv`, given how the bulk request, the
re-evaluate request and the refresh of the card's list settle (each outcome
is used only if its request is made). `card` is the card
`document.querySelector` finds for the building. -/
def confirmHandler (els : Elements) (auth : Session) (inv : Invocation) (m : Modal)
    (card : Option Card) (bulk reevaluate : FetchOutcome Unit)
    (refresh : FetchOutcome (List (Option Device))) : ConfirmRun :=
  let itemsToUpdate := collectItems m.rows
  let someItems : Bool :=
    match inv.allModalItemsLength with
    | some n => n > 0
    | none => false
  if itemsToUpdate.length = 0 && someItems then
    { modal := closeModal m, card := card, requests := []
      effects := [.showNotification "No changes detected or no items to update." false] }
  else if inv.allModalItemsLength = some 0 && itemsToUpdate.length = 0 then
    { modal := closeModal m, card := card, requests := [], effects := [] }
  else
    let m1 : Modal := { m with confirmDisabled := true, cancelDisabled := true }
    let recovered : Modal := { m1 with confirmDisabled := false, cancelDisabled := false }
    let run1 : ApiRun Unit := apiRequest els auth "proevents/ignore/bulk" (bulkOptions itemsToUpdate) bulk
    match run1.result with
    | .error _ =>
      { modal := recovered, card := card, requests := [run1.request], effects := run1.effects }
    | .ok _ =>
      let saved : Effect := .showNotification "Ignore settings saved. Applying changes..." false
      let run2 : ApiRun Unit :=
        apiRequest els auth (reevaluateEndpoint inv.buildingId) reevaluateOptions reevaluate
      match run2.result with
      | .error _ =>
        { modal := recovered, card := card
          requests := [run1.request, run2.request]
          effects := run1.effects ++ [saved] ++ run2.effects }
      | .ok _ =>
        let applied : Effect := .showNotification "Changes applied successfully." false
        let fx := run1.effects ++ [saved] ++ run2.effects ++ [applied]
        match card with
        | none =>
          { modal := closeModal m1, card := none
            requests := [run1.request, run2.request], effects := fx }
        | some c =>
          let c1 : Card := { c with loaded := some "false" }
          if c1.bodyDisplay ≠ "none" then
            let load := loadItemsForBuilding els auth c1 true (trim c1.searchValue) refresh
            match load.threw with
            | some _ =>
              { modal := recovered, card := some load.card
                requests := [run1.request, run2.request] ++ load.requests
                effects := fx ++ load.effects }
            | none =>
              { modal := closeModal m1, card := some { load.card with loaded := some "true" }
                requests := [run1.request, run2.request] ++ load.requests
                effects := fx ++ load.effects }
          else
            { modal := closeModal m1, card := some { c1 with children := [] }
              requests := [run1.request, run2.request], effects := fx }

/-! ## Start-time save of a building card -/

/-- Value of a hexadecimal digit. -/
def hexDigitValue (c : Char) : Nat :=
  if c.isDigit then c.toNat - 48
  else if c.isLower then c.toNat - 87
  else c.toNat - 55

/-- The characters `parseInt` reads in base 16. -/
def isHexDigit (c : Char) : Bool :=
  c.isDigit || (97 ≤ c.toNat && c.toNat ≤ 102) || (65 ≤ c.toNat && c.toNat ≤ 70)

/-- Value of a run of hexadecimal digits, most significant first. -/
def hexValue (ds : List Char) : Nat :=
  ds.foldl (fun acc c => acc * 16 + hexDigitValue c) 0

/-- The digits `parseInt` reads when no radix is given, with their value: base
16 after a leading `0x` or `0X`, base 10 otherwise. -/
def readNumber (rest : List Char) : List Char × Nat :=
  match rest with
  | '0' :: 'x' :: r => (r.takeWhile isHexDigit, hexValue (r.takeWhile isHexDigit))
  | '0' :: 'X' :: r => (r.takeWhile isHexDigit, hexValue (r.takeWhile isHexDigit))
  | r => (r.takeWhile Char.isDigit, digitsValue (r.takeWhile Char.isDigit))

/-- JS `parseInt(s)` with no radix argument; `none` stands for `NaN`. -/
def parseIntNoRadix (s : String) : Option Int :=
  let signed := splitSign (s.data.dropWhile isJsWhiteSpace)
  let read := readNumber signed.2
  if read.1.isEmpty then none
  else if signed.1 then some (-(read.2 : Int)) else some (read.2 : Int)

/-- `allBuildings.findIndex(p)`; `none` stands for -1. -/
def findIndex (p : Building → Bool) : List Building → Option Nat
  | [] => none
  | b :: rest => if p b then some 0 else (findIndex p rest).map (fun i => i + 1)

/-- The assignment `allBuildings[index].start_time = value`. -/
def assignStartTime (bs : List Building) (index : Nat) (value : String) : List Building :=
  match bs, index with
  | [], _ => []
  | b :: rest, 0 => { b with start_time := some value } :: rest
  | b :: rest, i + 1 => b :: assignStartTime rest i value

/-- The endpoint of the start-time request. -/
def timeEndpoint (buildingId : String) : String := "buildings/" ++ buildingId ++ "/time"

/-- The options of the start-time request. -/
def timeOptions (buildingId startTime : String) : Options :=
  { method := some "POST"
    headers := [("Content-Type", "application/json")]
    body := some (.time (parseIntNoRadix buildingId) startTime) }

/-- One run of the click handler of a card's save button: the cached building
array it leaves, with the requests and effects in program order. -/
structure TimeSaveRun where
  allBuildings : List Building
  requests : List Request
  effects : List Effect
  deriving DecidableEq, Repr

/-- The click handler of `.time-save-btn`, for the card's current input value,
given how the request settles should it be made. `b.id === parseInt(buildingId)`
never holds for `NaN`. -/
def timeSaveClick (els : Elements) (auth : Session) (allBuildings : List Building)
    (card : Card) (outcome : FetchOutcome Unit) : TimeSaveRun :=
  let startTime := card.startTimeValue
  if startTime = "" then
    { allBuildings := allBuildings, requests := []
      effects := [.showNotification "Start time is required." true] }
  else
    let run : ApiRun Unit := apiRequest els auth (timeEndpoint card.buildingId)
      (timeOptions card.buildingId startTime) outcome
    match run.result with
    | .error _ =>
      { allBuildings := allBuildings, requests := [run.request], effects := run.effects }
    | .ok _ =>
      let buildingIndex :=
        findIndex (fun b => decide (some b.id = parseIntNoRadix card.buildingId)) allBuildings
      { allBuildings :=
          match buildingIndex with
          | some index => assignStartTime allBuildings index startTime
          | none => allBuildings
        requests := [run.request]
        effects := run.effects ++
          [.showNotification "Building schedule updated successfully" false] }


/-! ## Notification surface -/

/-- The `#notification` element with the timers set for it: the text, the
background colour, whether the class `show` is on, the expando `timeoutId`
(`none` while it is undefined or `null`), the timers that are scheduled and
have neither fired nor been cleared (handle and delay), and the handle the
next `setTimeout` call returns (the browser hands out positive integers). -/
structure Notification where
  textContent : String
  backgroundColor : String
  shown : Bool
  timeoutId : Option Nat
  pending : List (Nat × Nat)
  nextHandle : Nat
  deriving DecidableEq, Repr

/-- The element of a freshly loaded page. -/
def Notification.initial : Notification :=
  { textContent := "", backgroundColor := "", shown := false, timeoutId := none
    pending := [], nextHandle := 1 }

/-- `clearTimeout(handle)`. -/
def clearTimeout (pending : List (Nat × Nat)) (handle : Nat) : List (Nat × Nat) :=
  pending.filter (fun t => t.1 ≠ handle)

/-- `App.showNotification(text, isError = false, timeout = 3000)` on a page
whose notification element is `el` (`none` when the element is missing); an
argument left out is `none`. -/
def showNotification (el : Option Notification) (text : String) (isError : Option Bool)
    (timeout : Option Nat) : Option Notification :=
  match el with
  | none => none
  | some n =>
    let cleared :=
      match n.timeoutId with
      | some handle => if handle ≠ 0 then clearTimeout n.pending handle else n.pending
      | none => n.pending
    some { textContent := text
           backgroundColor := if isError.getD false then "#ef4444" else "#22c55e"
           shown := true
           timeoutId := some n.nextHandle
           pending := cleared ++ [(n.nextHandle, timeout.getD 3000)]
           nextHandle := n.nextHandle + 1 }

/-- The timer with this handle fires: its callback runs if it is still
pending, and nothing happens otherwise. -/
def fireTimer (el : Option Notification) (handle : Nat) : Option Notification :=
  match el with
  | none => none
  | some n =>
    if n.pending.any (fun t => t.1 = handle) then
      some { n with shown := false, timeoutId := none
                    pending := n.pending.filter (fun t => t.1 ≠ handle) }
    else some n

/-- What happens to the notification surface: a call of `showNotification`, or
a timer firing. -/
inductive NotificationEvent where
  | call (text : String) (isError : Option Bool) (timeout : Option Nat)
  | fire (handle : Nat)
  deriving DecidableEq, Repr

/-- One event on the notification surface. -/
def notificationStep (el : Option Notification) (e : NotificationEvent) : Option Notification :=
  match e with
  | .call text isError timeout => showNotification el text isError timeout
  | .fire handle => fireTimer el handle

/-- A sequence of events, in order. -/
def notificationRun (el : Option Notification) (events : List NotificationEvent) :
    Option Notification :=
  events.foldl notificationStep el


/-! ## Opening and closing the modal repeatedly -/

/-- A click on the cancel button: every registered listener is a `closeModal`
closure and runs. -/
def clickCancel (m : Modal) : Modal :=
  m.cancelListeners.foldl (fun acc _ => closeModal acc) m

/-- A click on the close button of the modal. -/
def clickClose (m : Modal) : Modal :=
  m.closeListeners.foldl (fun acc _ => closeModal acc) m

/-- A click on the confirm button: nothing when the button is disabled,
otherwise the registered `confirmHandler` closures run, here one after the
other (with a single listener this is simply its run). -/
def clickConfirm (els : Elements) (auth : Session) (m : Modal) (card : Option Card)
    (bulk reevaluate : FetchOutcome Unit) (refresh : FetchOutcome (List (Option Device))) :
    Modal :=
  if m.confirmDisabled then m
  else m.confirmListeners.foldl
    (fun acc inv => (confirmHandler els auth inv acc card bulk reevaluate refresh).modal) m

/-- What the user does with the modal, each action running to completion
before the next: opening it for a building, or clicking one of its three
buttons. -/
inductive ModalEvent where
  | opened (buildingId : String) (devices : FetchOutcome (List (Option Device)))
  | cancel
  | close
  | confirm (card : Option Card) (bulk reevaluate : FetchOutcome Unit)
      (refresh : FetchOutcome (List (Option Device)))

/-- The modal together with the number of `showIgnoreSelectionModal` calls
made so far. -/
structure ModalPage where
  modal : Modal
  calls : Nat
  deriving DecidableEq, Repr

/-- One action on the modal. -/
def modalStep (els : Elements) (auth : Session) (p : ModalPage) (e : ModalEvent) : ModalPage :=
  match e with
  | .opened buildingId devices =>
    { modal := (showIgnoreSelectionModal els auth (p.calls + 1) buildingId p.modal
        devices).1.modal
      calls := p.calls + 1 }
  | .cancel => { p with modal := clickCancel p.modal }
  | .close => { p with modal := clickClose p.modal }
  | .confirm card bulk reevaluate refresh =>
    { p with modal := clickConfirm els auth p.modal card bulk reevaluate refresh }

/-- A sequence of actions on the modal of a freshly loaded page. -/
def modalRun (els : Elements) (auth : Session) (events : List ModalEvent) : ModalPage :=
  events.foldl (modalStep els auth) { modal := Modal.initial, calls := 0 }


/-! ## HTML escaping -/

/-- The replacement callback of `escapeHtml`: the entity for one of the five
characters the pattern `/[&<>"']/g` matches; any other character is not
matched and stays. -/
def escapeChar (c : Char) : List Char :=
  if c = '&' then "&amp;".data
  else if c = '<' then "&lt;".data
  else if c = '>' then "&gt;".data
  else if c = Char.ofNat 34 then "&quot;".data
  else if c = Char.ofNat 39 then "&#39;".data
  else [c]

/-- `App.escapeHtml(str)`; `none` is an absent or `null` argument. -/
def escapeHtml (str : Option String) : String :=
  String.mk ((strOr str "").data.flatMap escapeChar)


/-! ## Notions the properties are stated with -/

/-- The entries of a fetched device array that get a row: those that are
objects with both `id` and `name` defined. -/
def renderedDevices (items : List (Option Device)) : List Device :=
  (items.filterMap id).filter (fun d => d.id.isSome && d.name.isSome)

/-- The state of a device equals "armed" when letter case is ignored. -/
def armedIgnoringCase (d : Device) : Bool :=
  match d.state with
  | some s => toLowerCase s = "armed"
  | none => false

/-- The effect records a call of `showNotification`. -/
def Effect.isNotification : Effect → Bool
  | .showNotification _ _ => true
  | _ => false

/-- The effect records a call of `setTimeout`. -/
def Effect.isTimer : Effect → Bool
  | .setTimeout _ _ => true
  | _ => false

/-- The effect records a call of `fetch`. -/
def Effect.isFetch : Effect → Bool
  | .fetch _ => true
  | _ => false

/-- A request through `apiRequest` succeeds for this outcome: the promise
resolves instead of rejecting. -/
def succeeds {α : Type} (outcome : FetchOutcome α) : Bool :=
  match (apiTry outcome).2 with
  | .ok _ => true
  | .error _ => false

/-- The numeric `id` of a device whose `id` is an integer. -/
def Device.intId (d : Device) : Int :=
  match d.id with
  | some (.num n) => n
  | _ => 0

/-- A request made through `apiRequest` resolves to the JSON value `v` for
this outcome. -/
def resolvesTo {α : Type} (outcome : FetchOutcome α) (v : α) : Prop :=
  ∃ detail, (apiTry outcome).2 = .ok (.parsed (.value detail v))

/-- The update item the modal is expected to submit for a device of the
building with numeric id `building`. -/
def expectedItem (building : Int) (d : Device) : UpdateItem :=
  { item_id := d.intId, building_frk := building, device_prk := d.intId, ignore := d.is_ignored }

/-- A success response whose body is the JSON value `payload`. -/
def jsonOk {α : Type} (payload : α) : FetchOutcome α :=
  .response { status := 200, contentType := some "application/json"
              json := .ok (.value none payload) }

/-- Opening the modal for a building as call `k` and clicking confirm without
touching a checkbox or the filter. -/
def openAndConfirm (els : Elements) (auth : Session) (k : Nat) (buildingId : String)
    (m : Modal) (devices : FetchOutcome (List (Option Device))) (card : Option Card)
    (bulk reevaluate : FetchOutcome Unit) (refresh : FetchOutcome (List (Option Device))) :
    ConfirmRun :=
  let opened := showIgnoreSelectionModal els auth k buildingId m devices
  confirmHandler els auth opened.2 opened.1.modal card bulk reevaluate refresh

/-- A device object with an integer id, a name and an ignore flag. -/
def sampleDevice (n : Int) (name : String) (ignored : Bool) : Device :=
  { id := some (.num n), name := some name, state := some "Armed", is_ignored := ignored }

/-- The token key is set exactly when the username key is set. -/
def Storage.paired (s : Storage) : Prop := s.adminToken.isSome = s.adminUsername.isSome

/-- The token field is set exactly when the username field is set. -/
def Session.paired (s : Session) : Prop := s.token.isSome = s.username.isSome

/-- The outcome is a response with status 401. -/
def isUnauthorized {α : Type} (outcome : FetchOutcome α) : Bool :=
  match outcome with
  | .response r => r.status = 401
  | .networkError _ => false


/-- A response with the given status, no content type and a body that is not
JSON. -/
def respondsWith {α : Type} (status : Nat) : FetchOutcome α :=
  .response { status := status, contentType := none, json := .error "Unexpected end of JSON input" }


/-- No timer is pending, and the element is hidden. -/
def Notification.idle (n : Notification) : Prop :=
  n.pending = [] ∧ n.timeoutId = none ∧ n.shown = false

/-- The element is visible and exactly one timer is pending: the one whose
handle is stored in `timeoutId`, set with `delay`. -/
def Notification.showing (n : Notification) (handle delay : Nat) : Prop :=
  n.pending = [(handle, delay)] ∧ n.timeoutId = some handle ∧ n.shown = true ∧ handle ≠ 0

/-- The states the surface can be in: idle, or showing with one timer. -/
def Notification.consistent (n : Notification) : Prop :=
  n.nextHandle ≠ 0 ∧ (n.idle ∨ ∃ handle delay, n.showing handle delay)


/-- On each of the three buttons the registered click listeners are exactly
the handler stored in `__currentClickHandler__`, if any. -/
def Modal.tracked (m : Modal) : Prop :=
  m.confirmListeners = m.confirmCurrent.toList ∧
  m.cancelListeners = m.cancelCurrent.toList ∧
  m.closeListeners = m.closeCurrent.toList


/-- The five entities `escapeHtml` writes. -/
def htmlEntities : List (List Char) :=
  ["&amp;".data, "&lt;".data, "&gt;".data, "&quot;".data, "&#39;".data]

/-- One of the five characters `escapeHtml` replaces. -/
def isHtmlSpecial (c : Char) : Bool :=
  c = '&' || c = '<' || c = '>' || c = Char.ofNat 34 || c = Char.ofNat 39


/-! ## Properties -/

/-! ### JavaScript primitives -/

theorem isDigit_cases (c : Char) (h : c.isDigit = true) :
    c = '0' ∨ c = '1' ∨ c = '2' ∨ c = '3' ∨ c = '4' ∨ c = '5' ∨ c = '6' ∨ c = '7' ∨
    c = '8' ∨ c = '9' := by
  have h1 : 48 ≤ c.toNat ∧ c.toNat ≤ 57 := by
    simp only [Char.isDigit, Bool.and_eq_true, decide_eq_true_eq] at h
    exact ⟨h.1, h.2⟩
  have h2 : c = Char.ofNat c.toNat := by simp
  obtain ⟨ha, hb⟩ := h1
  rw [h2]
  generalize c.toNat = n at ha hb
  interval_cases n <;> decide

theorem digitChar_lt_ten (m : Nat) (h : m < 10) :
    (Nat.digitChar m).isDigit = true ∧ (Nat.digitChar m).toNat - 48 = m := by
  interval_cases m <;> decide

theorem digitsValue_snoc (pre : List Char) (d : Char) :
    digitsValue (pre ++ [d]) = digitsValue pre * 10 + (d.toNat - 48) := by
  simp [digitsValue, List.foldl_append]

theorem toDigitsCore_spec : ∀ (fuel n : Nat) (ds : List Char), n < fuel →
    ∃ pre : List Char, Nat.toDigitsCore 10 fuel n ds = pre ++ ds ∧ pre ≠ [] ∧
      (∀ c ∈ pre, c.isDigit = true) ∧ digitsValue pre = n := by
  intro fuel
  induction fuel with
  | zero => intro n ds h; omega
  | succ fuel ih =>
    intro n ds h
    have hd := digitChar_lt_ten (n % 10) (Nat.mod_lt _ (by decide))
    unfold Nat.toDigitsCore
    by_cases h0 : n / 10 = 0
    · refine ⟨[Nat.digitChar (n % 10)], by simp [h0], by simp, ?_, ?_⟩
      · intro c hc
        simp only [List.mem_singleton] at hc
        rw [hc]; exact hd.1
      · have : digitsValue [Nat.digitChar (n % 10)] = (Nat.digitChar (n % 10)).toNat - 48 := by
          simp [digitsValue]
        rw [this, hd.2]
        omega
    · obtain ⟨pre, hpre, _, hdig, hval⟩ := ih (n / 10) (Nat.digitChar (n % 10) :: ds) (by omega)
      refine ⟨pre ++ [Nat.digitChar (n % 10)], by simp [h0, hpre], by simp, ?_, ?_⟩
      · intro c hc
        rcases List.mem_append.mp hc with hc | hc
        · exact hdig c hc
        · simp only [List.mem_singleton] at hc
          rw [hc]; exact hd.1
      · rw [digitsValue_snoc, hval, hd.2]
        omega

theorem toDigits_spec (n : Nat) :
    Nat.toDigits 10 n ≠ [] ∧ (∀ c ∈ Nat.toDigits 10 n, c.isDigit = true) ∧
      digitsValue (Nat.toDigits 10 n) = n := by
  obtain ⟨pre, hpre, hne, hdig, hval⟩ := toDigitsCore_spec (n + 1) n [] (by omega)
  have : Nat.toDigits 10 n = pre := by simpa [Nat.toDigits] using hpre
  rw [this]
  exact ⟨hne, hdig, hval⟩
theorem isDigit_not_space (c : Char) (h : c.isDigit = true) :
    isJsWhiteSpace c = false ∧ c ≠ '-' ∧ c ≠ '+' := by
  rcases isDigit_cases c h with h | h | h | h | h | h | h | h | h | h <;> subst h <;> decide

theorem takeWhile_isDigit (ds : List Char) (hdig : ∀ c ∈ ds, c.isDigit = true) :
    ds.takeWhile Char.isDigit = ds := by
  induction ds with
  | nil => rfl
  | cons c tl ih =>
    have hc := hdig c (by simp)
    rw [List.takeWhile_cons, hc]
    simp only [if_true]
    rw [ih (fun x hx => hdig x (by simp [hx]))]

theorem splitSign_digit (c : Char) (tl : List Char) (hminus : c ≠ '-') (hplus : c ≠ '+') :
    splitSign (c :: tl) = (false, c :: tl) := by
  unfold splitSign
  split
  · next r heq => simp at heq; exact absurd heq.1 hminus
  · next r heq => simp at heq; exact absurd heq.1 hplus
  · rfl

theorem parseIntChars_digits (ds : List Char) (hne : ds ≠ [])
    (hdig : ∀ c ∈ ds, c.isDigit = true) :
    parseIntChars ds = some (digitsValue ds : Int) ∧
      parseIntChars ('-' :: ds) = some (-(digitsValue ds : Int)) := by
  cases ds with
  | nil => exact absurd rfl hne
  | cons c tl =>
    obtain ⟨hsp, hminus, hplus⟩ := isDigit_not_space c (hdig c (by simp))
    have htw := takeWhile_isDigit (c :: tl) hdig
    have hdrop : (c :: tl).dropWhile isJsWhiteSpace = c :: tl := by
      simp [List.dropWhile_cons, hsp]
    have hdrop2 : ('-' :: c :: tl).dropWhile isJsWhiteSpace = '-' :: c :: tl := by
      have hm : isJsWhiteSpace '-' = false := by decide
      simp [List.dropWhile_cons, hm]
    have hs2 : splitSign ('-' :: c :: tl) = (true, c :: tl) := rfl
    constructor
    · unfold parseIntChars
      rw [hdrop, splitSign_digit c tl hminus hplus]
      simp [htw]
    · unfold parseIntChars
      rw [hdrop2, hs2]
      simp [htw]

theorem naturalToString_small (k : Nat) (h : k < 10 ^ 21) :
    naturalToString k = Nat.toDigits 10 k := by
  unfold naturalToString
  rw [if_pos h]

theorem numberToString_small (n : Int) (h : n.natAbs < 10 ^ 21) :
    numberToString n =
      match n with
      | Int.ofNat k => String.mk (Nat.toDigits 10 k)
      | Int.negSucc k => String.mk ('-' :: Nat.toDigits 10 (k + 1)) := by
  cases n with
  | ofNat k =>
    have hk : k < 10 ^ 21 := by simpa using h
    simp only [numberToString, naturalToString_small k hk]
  | negSucc k =>
    have hk : k + 1 < 10 ^ 21 := by simpa [Int.natAbs] using h
    simp only [numberToString, naturalToString_small (k + 1) hk]

theorem parseInt_numberToString (n : Int) (h : n.natAbs < 10 ^ 21) :
    parseInt (numberToString n) = some n := by
  rw [numberToString_small n h]
  unfold parseInt
  cases n with
  | ofNat k =>
    obtain ⟨hne, hdig, hval⟩ := toDigits_spec k
    simp only
    rw [(parseIntChars_digits _ hne hdig).1, hval]
    rfl
  | negSucc k =>
    obtain ⟨hne, hdig, hval⟩ := toDigits_spec (k + 1)
    simp only
    rw [(parseIntChars_digits _ hne hdig).2, hval]
    rfl


/-! ### Building status -/

theorem createItem_isSome (d : Device) :
    (createItem (some d)).isSome = (d.id.isSome && d.name.isSome) := by
  unfold createItem
  cases hid : d.id <;> cases hname : d.name <;> simp [hid, hname]

theorem createItem_classList (item : Option Device) (li : Li) (h : createItem item = some li) :
    li.classList = ["device-item"] := by
  unfold createItem at h
  split at h
  · cases h
  · split at h
    · cases h; rfl
    · cases h

theorem createItem_state (d : Device) (li : Li) (h : createItem (some d) = some li) :
    decide (li.state = some "armed") = armedIgnoringCase d := by
  unfold createItem at h
  simp only at h
  split at h
  · cases h
    unfold armedIgnoringCase strOr
    cases hs : d.state with
    | none => simp; decide
    | some s =>
      by_cases he : s = ""
      · subst he; simp; decide
      · simp [he]
  · cases h

theorem rows_classList (items : List (Option Device)) :
    ∀ li ∈ items.filterMap createItem, li.classList = ["device-item"] := by
  intro li hli
  obtain ⟨item, _, h⟩ := List.mem_filterMap.mp hli
  exact createItem_classList item li h

theorem rows_length (items : List (Option Device)) :
    (items.filterMap createItem).length = (renderedDevices items).length := by
  induction items with
  | nil => rfl
  | cons item rest ih =>
    cases item with
    | none => simpa [renderedDevices, createItem, List.filterMap_cons] using ih
    | some d =>
      have hs := createItem_isSome d
      cases hc : createItem (some d) with
      | none =>
        rw [hc] at hs
        have hv : (d.id.isSome && d.name.isSome) = false := by simpa using hs.symm
        simp only [List.filterMap_cons, hc, renderedDevices, id, List.filter_cons, hv]
        simpa [renderedDevices] using ih
      | some li =>
        rw [hc] at hs
        have hv : (d.id.isSome && d.name.isSome) = true := by simpa using hs.symm
        simp only [List.filterMap_cons, hc, renderedDevices, id, List.filter_cons, hv]
        simpa [renderedDevices] using ih

theorem rows_armed (items : List (Option Device)) :
    ((items.filterMap createItem).filter (fun li => li.state = some "armed")).length =
      (renderedDevices items).countP armedIgnoringCase := by
  induction items with
  | nil => rfl
  | cons item rest ih =>
    cases item with
    | none => simpa [renderedDevices, createItem, List.filterMap_cons] using ih
    | some d =>
      have hs := createItem_isSome d
      cases hc : createItem (some d) with
      | none =>
        rw [hc] at hs
        have hv : (d.id.isSome && d.name.isSome) = false := by simpa using hs.symm
        simp only [List.filterMap_cons, hc, renderedDevices, id, List.filter_cons, hv]
        simpa [renderedDevices] using ih
      | some li =>
        rw [hc] at hs
        have hv : (d.id.isSome && d.name.isSome) = true := by simpa using hs.symm
        have hst := createItem_state d li hc
        simp only [List.filterMap_cons, hc, renderedDevices, id, List.filter_cons, hv]
        rw [if_pos trivial, List.countP_cons, hst]
        cases ha : armedIgnoringCase d <;> simpa [renderedDevices] using ih

theorem deviceItems_rows (card : Card) (items : List (Option Device)) :
    deviceItems { card with children := items.filterMap createItem } =
      items.filterMap createItem := by
  unfold deviceItems
  apply List.filter_eq_self.mpr
  intro li hli
  rw [rows_classList items li hli]
  decide

theorem statusText_rows (card : Card) (items : List (Option Device)) :
    (updateBuildingStatus { card with children := items.filterMap createItem }).statusText =
      if (renderedDevices items).length = 0 then "No ProEvents"
      else if (renderedDevices items).countP armedIgnoringCase = (renderedDevices items).length
        then "All Armed"
      else if 0 < (renderedDevices items).countP armedIgnoringCase then "Partially Armed"
      else "All Disarmed" := by
  have hmuted : (match items.filterMap createItem with
      | [li] => li.classList.contains "muted"
      | _ => false) = false := by
    split
    · next li heq =>
      have hmem : li ∈ items.filterMap createItem := by rw [heq]; simp
      rw [rows_classList items li hmem]
      decide
    · rfl
  unfold updateBuildingStatus
  simp only [deviceItems_rows, hmuted, rows_length, rows_armed, Bool.or_false,
    decide_eq_true_eq, gt_iff_lt]
  split
  · rfl
  · split
    · rfl
    · split <;> rfl

/-- C1: for the rows `createItem` renders from any fetched device array (and
for a list showing only a placeholder), `updateBuildingStatus` writes
"No ProEvents" when there is no row, and otherwise, with `total` rows of which
`armedCount` belong to devices whose state is "armed" ignoring letter case,
"All Armed" when `armedCount = total`, "Partially Armed" when
`0 < armedCount < total` and "All Disarmed" when `armedCount = 0`. -/
theorem updateBuildingStatus_aggregates (card : Card) (items : List (Option Device)) :
    let rows := items.filterMap createItem
    let total := (renderedDevices items).length
    let armedCount := (renderedDevices items).countP armedIgnoringCase
    let status := (updateBuildingStatus { card with children := rows }).statusText
    rows.length = total ∧ armedCount ≤ total ∧
    (∀ text, (updateBuildingStatus { card with children := [mutedLi text] }).statusText
      = "No ProEvents") ∧
    (total = 0 → status = "No ProEvents") ∧
    (0 < total → armedCount = total → status = "All Armed") ∧
    (0 < armedCount → armedCount < total → status = "Partially Armed") ∧
    (0 < total → armedCount = 0 → status = "All Disarmed") := by
  intro rows total armedCount status
  have hst : status = _ := statusText_rows card items
  refine ⟨rows_length items, List.countP_le_length _, ?_, ?_, ?_, ?_, ?_⟩
  · intro text
    rfl
  · intro h0
    rw [hst, if_pos h0]
  · intro hpos heq
    rw [hst, if_neg (by omega), if_pos heq]
  · intro hpos hlt
    rw [hst, if_neg (by omega), if_neg (by omega), if_pos hpos]
  · intro hpos h0
    rw [hst, if_neg (by omega), if_neg (by omega), if_neg (by omega)]

/-! ### API gateway -/

/-- C2 (what the code does on a 401): for every endpoint, options and session,
a response with status 401 makes `apiRequest` call `showNotification` twice
("Session expired. Please login again.", then "Unauthorized" from its own
`catch` block), schedule one timer of 2000 ms whose callback clears the session
once and redirects to the login view once, and reject with "Unauthorized". -/
theorem apiRequest_unauthorized {α : Type} (els : Elements) (auth : Session)
    (endpoint : String) (options : Options) (r : Response α) (h : r.status = 401) :
    let run := apiRequest els auth endpoint options (.response r)
    run.effects.filter Effect.isNotification =
      [.showNotification "Session expired. Please login again." true,
       .showNotification "Unauthorized" true] ∧
    run.effects.filter Effect.isTimer = [.setTimeout .clearAuthAndRedirect 2000] ∧
    run.result = .error "Unauthorized" ∧
    (∀ b : Browser,
      (runClearAuthAndRedirect b).effects = b.effects ++ [.clearAuth, .redirect "/login"]) := by
  intro run
  have hres : apiTry (.response r) =
      ([.showNotification "Session expired. Please login again." true,
        .setTimeout .clearAuthAndRedirect 2000], (.error "Unauthorized" : Except String (ApiValue α))) := by
    simp [apiTry, h]
  have hor : strOr (some "Unauthorized") "An unexpected error occurred" = "Unauthorized" := by
    decide
  refine ⟨?_, ?_, ?_, ?_⟩
  · show (apiRequest els auth endpoint options (.response r)).effects.filter _ = _
    unfold apiRequest
    simp only [hres, hor]
    cases els.loader <;> simp [List.filter, Effect.isNotification]
  · show (apiRequest els auth endpoint options (.response r)).effects.filter _ = _
    unfold apiRequest
    simp only [hres, hor]
    cases els.loader <;> simp [List.filter, Effect.isTimer]
  · show (apiRequest els auth endpoint options (.response r)).result = _
    unfold apiRequest
    simp only [hres]
  · intro b
    simp [runClearAuthAndRedirect, AuthManager.clearAuth, Browser.replace]

/-- C2, at a concrete input: a 401 answer to `apiRequest('buildings')`. -/
theorem apiRequest_unauthorized_witness :
    ((apiRequest ⟨true⟩ ⟨some "tok", some "admin"⟩ "buildings" Options.empty
        (.response ({ status := 401, contentType := none, json := .error "" } :
          Response Unit))).effects.filter Effect.isNotification).length = 2 :=
  congrArg List.length
    (apiRequest_unauthorized ⟨true⟩ ⟨some "tok", some "admin"⟩ "buildings"
      Options.empty ({ status := 401, contentType := none, json := .error "" } : Response Unit)
      rfl).1

theorem Headers.get_cons (e : String × String) (o : Headers) (k : String) :
    Headers.get (e :: o) k = if e.1 = k then some e.2 else Headers.get o k := by
  unfold Headers.get
  by_cases h : e.1 = k <;> simp [List.find?_cons, h]

theorem Headers.get_map_other (o : Headers) (k v k' : String) (h : k' ≠ k) :
    Headers.get (o.map (fun e => if e.1 = k then (k, v) else e)) k' = Headers.get o k' := by
  induction o with
  | nil => rfl
  | cons e rest ih =>
    rw [List.map_cons, Headers.get_cons, Headers.get_cons, ih]
    by_cases he : e.1 = k
    · have h1 : ¬ k = k' := fun hk => h hk.symm
      have h2 : ¬ e.1 = k' := fun hk => h (hk.symm.trans he)
      simp [he, h1, h2]
    · simp [he]

theorem Headers.get_map_same (o : Headers) (k v : String)
    (h : o.any (fun e => e.1 = k) = true) :
    Headers.get (o.map (fun e => if e.1 = k then (k, v) else e)) k = some v := by
  induction o with
  | nil => simp at h
  | cons e rest ih =>
    rw [List.map_cons, Headers.get_cons]
    by_cases he : e.1 = k
    · simp [he]
    · have hrest : rest.any (fun e => e.1 = k) = true := by
        simpa [List.any_cons, he] using h
      simp [he, ih hrest]

theorem Headers.get_absent (o : Headers) (k : String)
    (h : ¬ o.any (fun e => e.1 = k) = true) : Headers.get o k = none := by
  induction o with
  | nil => rfl
  | cons e rest ih =>
    have he : ¬ e.1 = k := fun he => h (by simp [List.any_cons, he])
    have hrest : ¬ rest.any (fun e => e.1 = k) = true := fun hr => h (by simp [List.any_cons, hr])
    rw [Headers.get_cons, if_neg he, ih hrest]

theorem Headers.get_append_single (o : Headers) (k v k' : String) :
    Headers.get (o ++ [(k, v)]) k' =
      match Headers.get o k' with
      | some w => some w
      | none => if k = k' then some v else none := by
  induction o with
  | nil => simp [Headers.get_cons, Headers.get]
  | cons e rest ih =>
    rw [List.cons_append, Headers.get_cons, Headers.get_cons, ih]
    by_cases he : e.1 = k' <;> simp [he]

theorem Headers.get_set (o : Headers) (k v k' : String) :
    Headers.get (Headers.set o k v) k' = if k' = k then some v else Headers.get o k' := by
  unfold Headers.set
  by_cases hany : o.any (fun e => e.1 = k) = true
  · rw [if_pos hany]
    by_cases hk : k' = k
    · subst hk
      rw [Headers.get_map_same o k' v hany, if_pos rfl]
    · rw [Headers.get_map_other o k v k' hk, if_neg hk]
  · rw [if_neg hany, Headers.get_append_single]
    by_cases hk : k' = k
    · subst hk
      rw [Headers.get_absent o k' hany]
    · have hk2 : ¬ k = k' := fun h => hk h.symm
      cases hg : Headers.get o k' <;> simp [hk, hk2]

theorem Headers.get_spread (b a : Headers) (k : String)
    (hnodup : (b.map Prod.fst).Nodup) :
    Headers.get (Headers.spread a b) k =
      match Headers.get b k with
      | some v => some v
      | none => Headers.get a k := by
  induction b generalizing a with
  | nil => rfl
  | cons e rest ih =>
    have hn : e.1 ∉ rest.map Prod.fst ∧ (rest.map Prod.fst).Nodup := by
      simpa [List.nodup_cons] using hnodup
    have hstep : Headers.spread a (e :: rest) = Headers.spread (Headers.set a e.1 e.2) rest := rfl
    rw [hstep, ih _ hn.2, Headers.get_cons, Headers.get_set]
    by_cases he : e.1 = k
    · subst he
      have habs : Headers.get rest e.1 = none := by
        apply Headers.get_absent
        intro hany
        apply hn.1
        obtain ⟨x, hx, hxe⟩ := List.any_eq_true.mp hany
        exact List.mem_map.mpr ⟨x, hx, by simpa using hxe⟩
      simp [habs]
    · have he2 : ¬ k = e.1 := fun h => he h.symm
      simp [he, he2]

theorem apiTry_no_fetch {α : Type} (outcome : FetchOutcome α) :
    (apiTry outcome).1.filter Effect.isFetch = [] := by
  unfold apiTry
  repeat' split
  all_goals simp [List.filter, Effect.isFetch]

theorem apiRequest_fetches_once {α : Type} (els : Elements) (auth : Session)
    (endpoint : String) (options : Options) (outcome : FetchOutcome α) :
    (apiRequest els auth endpoint options outcome).effects.filter Effect.isFetch =
      [.fetch (apiRequest els auth endpoint options outcome).request] := by
  have h := apiTry_no_fetch outcome
  unfold apiRequest
  simp only [List.filter_append, h]
  cases els.loader <;> cases hres : (apiTry outcome).2 <;>
    simp [List.filter, Effect.isFetch]

/-- C3: for every endpoint that does not start with "admin/", whatever the
session token, `apiRequest` sends exactly one request, whose headers are the
default `Content-Type: application/json` overwritten by the caller's headers:
each caller entry is sent as given, `Content-Type` falls back to the default,
and `Authorization` is sent only if the caller itself supplied it. -/
theorem apiRequest_no_authorization {α : Type} (els : Elements) (auth : Session)
    (endpoint : String) (options : Options) (outcome : FetchOutcome α)
    (hep : startsWith endpoint "admin/" = false)
    (hnodup : (options.headers.map Prod.fst).Nodup) :
    let run := apiRequest els auth endpoint options outcome
    run.request.headers =
      Headers.spread [("Content-Type", "application/json")] options.headers ∧
    run.effects.filter Effect.isFetch = [.fetch run.request] ∧
    (∀ k, Headers.get run.request.headers k =
      match Headers.get options.headers k with
      | some v => some v
      | none => if k = "Content-Type" then some "application/json" else none) ∧
    Headers.get run.request.headers "Authorization" =
      Headers.get options.headers "Authorization" := by
  intro run
  have hh : run.request.headers =
      Headers.spread [("Content-Type", "application/json")] options.headers := by
    show apiHeaders auth endpoint options = _
    unfold apiHeaders
    cases auth.token <;> simp [hep]
  have hget : ∀ k, Headers.get run.request.headers k =
      match Headers.get options.headers k with
      | some v => some v
      | none => if k = "Content-Type" then some "application/json" else none := by
    intro k
    rw [hh, Headers.get_spread _ _ _ hnodup]
    cases Headers.get options.headers k with
    | some v => rfl
    | none =>
      simp only [Headers.get_cons]
      by_cases hk : k = "Content-Type"
      · subst hk; simp
      · have hk2 : ¬ "Content-Type" = k := fun h => hk h.symm
        simp [hk, hk2, Headers.get]
  refine ⟨hh, apiRequest_fetches_once els auth endpoint options outcome, hget, ?_⟩
  rw [hget]
  cases Headers.get options.headers "Authorization" with
  | some v => rfl
  | none => simp

/-- C3, at a concrete input: the time-save request of building 7 with a
session token present. -/
theorem apiRequest_no_authorization_witness :
    (apiRequest ⟨true⟩ ⟨some "tok", some "admin"⟩ "buildings/7/time"
        { method := some "POST", headers := [("Content-Type", "application/json")],
          body := some (.time (some 7) "21:30") }
        (.networkError "Failed to fetch" : FetchOutcome Unit)).request.headers =
      Headers.spread [("Content-Type", "application/json")]
        [("Content-Type", "application/json")] :=
  (apiRequest_no_authorization ⟨true⟩ ⟨some "tok", some "admin"⟩ "buildings/7/time"
    { method := some "POST", headers := [("Content-Type", "application/json")],
      body := some (.time (some 7) "21:30") }
    (.networkError "Failed to fetch" : FetchOutcome Unit) (by decide) (by decide)).1

theorem startsWith_admin_bulk : startsWith "proevents/ignore/bulk" "admin/" = false := by decide

theorem startsWith_admin_reevaluate (buildingId : String) :
    startsWith (reevaluateEndpoint buildingId) "admin/" = false := by
  unfold startsWith reevaluateEndpoint
  simp only [String.data_append]
  rfl

theorem startsWith_admin_devices (buildingId search : String) :
    startsWith (devicesEndpoint buildingId search) "admin/" = false := by
  unfold startsWith devicesEndpoint
  simp only [String.data_append]
  rfl

theorem apiRequest_request {α : Type} (els : Elements) (auth : Session) (endpoint : String)
    (options : Options) (outcome : FetchOutcome α) :
    (apiRequest els auth endpoint options outcome).request = apiFetchArgs auth endpoint options :=
  rfl

theorem apiRequest_result {α : Type} (els : Elements) (auth : Session) (endpoint : String)
    (options : Options) (outcome : FetchOutcome α) :
    (apiRequest els auth endpoint options outcome).result = (apiTry outcome).2 :=
  rfl

theorem apiHeaders_not_admin (auth : Session) (endpoint : String) (options : Options)
    (hep : startsWith endpoint "admin/" = false) :
    apiHeaders auth endpoint options =
      Headers.spread [("Content-Type", "application/json")] options.headers := by
  unfold apiHeaders
  cases auth.token <;> simp [hep]

theorem bulk_headers (auth : Session) (items : List UpdateItem) :
    (apiFetchArgs auth "proevents/ignore/bulk" (bulkOptions items)).headers =
      [("Content-Type", "application/json")] := by
  show apiHeaders auth _ _ = _
  rw [apiHeaders_not_admin _ _ _ startsWith_admin_bulk]
  rfl

theorem reevaluate_headers (auth : Session) (buildingId : String) :
    (apiFetchArgs auth (reevaluateEndpoint buildingId) reevaluateOptions).headers =
      [("Content-Type", "application/json")] := by
  show apiHeaders auth _ _ = _
  rw [apiHeaders_not_admin _ _ _ (startsWith_admin_reevaluate buildingId)]
  rfl

theorem devices_headers (auth : Session) (buildingId search : String) :
    (apiFetchArgs auth (devicesEndpoint buildingId search) Options.empty).headers =
      [("Content-Type", "application/json")] := by
  show apiHeaders auth _ _ = _
  rw [apiHeaders_not_admin _ _ _ (startsWith_admin_devices buildingId search)]
  rfl

theorem loadItemsForBuilding_requests (els : Elements) (auth : Session) (card : Card)
    (reset : Bool) (search : String) (outcome : FetchOutcome (List (Option Device))) :
    (loadItemsForBuilding els auth card reset search outcome).requests =
      [apiFetchArgs auth (devicesEndpoint card.buildingId search) Options.empty] := rfl

/-- The requests of a run of `confirmHandler` form an initial part of: the bulk
request, the re-evaluate request, the refresh of the card's device list. -/
theorem confirmHandler_requests (els : Elements) (auth : Session) (inv : Invocation) (m : Modal)
    (card : Option Card) (bulk reevaluate : FetchOutcome Unit)
    (refresh : FetchOutcome (List (Option Device))) :
    ∃ rest, (confirmHandler els auth inv m card bulk reevaluate refresh).requests ++ rest =
      [apiFetchArgs auth "proevents/ignore/bulk" (bulkOptions (collectItems m.rows)),
       apiFetchArgs auth (reevaluateEndpoint inv.buildingId) reevaluateOptions] ++
      (match card with
       | some c => [apiFetchArgs auth (devicesEndpoint c.buildingId (trim c.searchValue))
                      Options.empty]
       | none => []) := by
  cases card with
  | none =>
    unfold confirmHandler
    simp only [apiRequest_request]
    repeat' split
    all_goals simp
  | some c =>
    unfold confirmHandler
    simp only [apiRequest_request, loadItemsForBuilding_requests]
    repeat' split
    all_goals simp

/-- C4 (as stated, refuted): with the token "tok" in the session, the bulk
request and the re-evaluate request of building 5 are sent without an
`Authorization` header. -/
theorem modal_requests_without_bearer :
    (openAndConfirm ⟨true⟩ ⟨some "tok", some "admin"⟩ 1 (numberToString 5) Modal.initial
        (jsonOk [some (sampleDevice 1 "Door" true)]) none (jsonOk ()) (jsonOk ())
        (jsonOk [])).requests.map (fun r => (r.url, Headers.get r.headers "Authorization")) =
      [("http://127.0.0.1:7070/api/proevents/ignore/bulk", none),
       ("http://127.0.0.1:7070/api/buildings/5/reevaluate", none)] := by
  decide

/-- C4 (amended): for every building id and every session, whatever its token,
every request a modal submission sends through `apiRequest` (the bulk request,
the re-evaluate request and the refresh of the card's list) carries exactly
the header `Content-Type: application/json` and no `Authorization` header:
`apiRequest` adds the bearer header only to endpoints that start with
"admin/". -/
theorem modal_requests_unauthenticated (els : Elements) (auth : Session) (inv : Invocation)
    (m : Modal) (card : Option Card) (bulk reevaluate : FetchOutcome Unit)
    (refresh : FetchOutcome (List (Option Device))) (items : List UpdateItem) :
    (apiFetchArgs auth "proevents/ignore/bulk" (bulkOptions items)).headers =
      [("Content-Type", "application/json")] ∧
    (apiFetchArgs auth (reevaluateEndpoint inv.buildingId) reevaluateOptions).headers =
      [("Content-Type", "application/json")] ∧
    ∀ req ∈ (confirmHandler els auth inv m card bulk reevaluate refresh).requests,
      req.headers = [("Content-Type", "application/json")] ∧
      Headers.get req.headers "Authorization" = none := by
  refine ⟨bulk_headers auth items, reevaluate_headers auth inv.buildingId, ?_⟩
  have hall : ∀ r ∈
      [apiFetchArgs auth "proevents/ignore/bulk" (bulkOptions (collectItems m.rows)),
       apiFetchArgs auth (reevaluateEndpoint inv.buildingId) reevaluateOptions] ++
      (match card with
       | some c => [apiFetchArgs auth (devicesEndpoint c.buildingId (trim c.searchValue))
                      Options.empty]
       | none => []), r.headers = [("Content-Type", "application/json")] := by
    intro r hr
    cases card with
    | none =>
      simp only [List.append_nil, List.mem_cons, List.mem_singleton, List.not_mem_nil,
        or_false] at hr
      rcases hr with hr | hr <;> subst hr
      · exact bulk_headers auth _
      · exact reevaluate_headers auth _
    | some c =>
      simp only [List.cons_append, List.nil_append, List.mem_cons, List.mem_singleton,
        List.not_mem_nil, or_false] at hr
      rcases hr with hr | hr | hr <;> subst hr
      · exact bulk_headers auth _
      · exact reevaluate_headers auth _
      · exact devices_headers auth _ _
  intro req hreq
  obtain ⟨rest, hrest⟩ := confirmHandler_requests els auth inv m card bulk reevaluate refresh
  have hmem : req ∈ (confirmHandler els auth inv m card bulk reevaluate refresh).requests ++ rest :=
    List.mem_append_left _ hreq
  rw [hrest] at hmem
  have hh := hall req hmem
  exact ⟨hh, by rw [hh]; rfl⟩

/-! ### Session guard -/

/-- C5: with no stored token (the key absent, or holding the empty string)
and a current path other than "/login", `AuthManager.init` returns false and
records exactly one effect, the redirect to "/login": no request is started,
whatever the network would have answered. -/
theorem init_without_token {α : Type} (b : Browser) (outcome : FetchOutcome α)
    (htoken : truthy b.storage.adminToken = false) (hpath : b.pathname ≠ "/login") :
    (AuthManager.init b outcome).result = false ∧
    (AuthManager.init b outcome).started.effects = b.effects ++ [.redirect "/login"] ∧
    (AuthManager.init b outcome).settled = (AuthManager.init b outcome).started ∧
    ((AuthManager.init b outcome).settled.effects.drop b.effects.length).filter
      Effect.isFetch = [] := by
  have hrun : AuthManager.init b outcome =
      { result := false
        started := { b with auth := { token := b.storage.adminToken
                                      username := b.storage.adminUsername }
                            effects := b.effects ++ [.redirect "/login"] }
        settled := { b with auth := { token := b.storage.adminToken
                                      username := b.storage.adminUsername }
                            effects := b.effects ++ [.redirect "/login"] } } := by
    unfold AuthManager.init
    simp [htoken, hpath, Browser.replace]
  rw [hrun]
  refine ⟨rfl, rfl, rfl, ?_⟩
  simp [List.filter, Effect.isFetch]

/-- C5, at a concrete input: empty storage on the path "/". -/
theorem init_without_token_witness :
    (AuthManager.init ⟨⟨none, none⟩, ⟨none, none⟩, "/", []⟩
      (.networkError "Failed to fetch" : FetchOutcome Unit)).result = false :=
  (init_without_token ⟨⟨none, none⟩, ⟨none, none⟩, "/", []⟩
    (.networkError "Failed to fetch" : FetchOutcome Unit) rfl (by decide)).1

/-- Whether the verification request settles as a failure: the request itself
fails, or the status is not a success status. -/
theorem verifyToken_settles {α : Type} (auth : Session) (token : String)
    (htoken : auth.token = some token) (hne : token ≠ "") (outcome : FetchOutcome α) :
    AuthManager.verifyToken auth outcome =
      (some (verifyRequest token),
        match outcome with
        | .networkError m => .error m
        | .response r => if !r.ok then .error "Token verification failed" else .ok true) := by
  unfold AuthManager.verifyToken
  simp [htoken, hne]

/-- C6: with a stored non-empty token and a current path other than "/login",
`AuthManager.init` returns true and starts exactly one verification request,
both independently of how that request settles; if the request fails or
answers with a non-success status, the session is cleared once and one
redirect to "/login" follows; if it answers with a success status, nothing
further happens and the session stays as loaded. -/
theorem init_with_token {α : Type} (b : Browser) (token : String)
    (htoken : b.storage.adminToken = some token) (hne : token ≠ "")
    (hpath : b.pathname ≠ "/login") :
    let loaded : Browser :=
      { b with auth := { token := some token, username := b.storage.adminUsername }
               effects := b.effects ++ [.fetch (verifyRequest token)] }
    (∀ outcome : FetchOutcome α,
      (AuthManager.init b outcome).result = true ∧
      (AuthManager.init b outcome).started = loaded) ∧
    (∀ message : String,
      (AuthManager.init b (.networkError message : FetchOutcome α)).settled =
        { loaded with storage := ⟨none, none⟩, auth := ⟨none, none⟩
                      effects := loaded.effects ++ [.clearAuth, .redirect "/login"] }) ∧
    (∀ r : Response α, r.ok = false →
      (AuthManager.init b (.response r)).settled =
        { loaded with storage := ⟨none, none⟩, auth := ⟨none, none⟩
                      effects := loaded.effects ++ [.clearAuth, .redirect "/login"] }) ∧
    (∀ r : Response α, r.ok = true →
      (AuthManager.init b (.response r)).settled = loaded) := by
  intro loaded
  have htruthy : truthy (some token) = true := by simp [truthy, hne]
  have hrun : ∀ outcome : FetchOutcome α, AuthManager.init b outcome =
      { result := true
        started := loaded
        settled :=
          match (match outcome with
            | .networkError m => (.error m : Except String Bool)
            | .response r => if !r.ok then .error "Token verification failed" else .ok true) with
          | .error _ => (AuthManager.clearAuth loaded).replace "/login"
          | .ok _ => loaded } := by
    intro outcome
    unfold AuthManager.init
    simp only [htoken, htruthy, hpath, ne_eq, not_false_eq_true, decide_True, Bool.not_true,
      Bool.false_and, Bool.true_and, if_true, Bool.false_eq_true, if_false]
    rw [verifyToken_settles _ token rfl hne outcome]
    rfl
  refine ⟨fun outcome => ?_, fun message => ?_, fun r hr => ?_, fun r hr => ?_⟩
  · rw [hrun]; exact ⟨rfl, rfl⟩
  · rw [hrun]
    simp [AuthManager.clearAuth, Browser.replace]
  · rw [hrun]
    simp [hr, AuthManager.clearAuth, Browser.replace]
  · rw [hrun]
    simp [hr]

/-- C6, at a concrete input: the token "tok" stored, the path "/", and a
verification answered with status 403. -/
theorem init_with_token_witness :
    (AuthManager.init ⟨⟨some "tok", some "admin"⟩, ⟨none, none⟩, "/", []⟩
      (.response ({ status := 403, contentType := none, json := .error "" } :
        Response Unit))).settled =
      ⟨⟨none, none⟩, ⟨none, none⟩, "/",
        [.fetch (verifyRequest "tok"), .clearAuth, .redirect "/login"]⟩ :=
  (init_with_token ⟨⟨some "tok", some "admin"⟩, ⟨none, none⟩, "/", []⟩ "tok" rfl
    (by decide) (by decide)).2.2.1 ({ status := 403, contentType := none, json := .error "" } :
        Response Unit) rfl

theorem clearAuth_paired (b : Browser) :
    (AuthManager.clearAuth b).storage.paired ∧ (AuthManager.clearAuth b).auth.paired :=
  ⟨rfl, rfl⟩

theorem init_paired {α : Type} (b : Browser) (outcome : FetchOutcome α)
    (hs : b.storage.paired) :
    ((AuthManager.init b outcome).started.storage.paired ∧
      (AuthManager.init b outcome).started.auth.paired) ∧
    ((AuthManager.init b outcome).settled.storage.paired ∧
      (AuthManager.init b outcome).settled.auth.paired) := by
  unfold AuthManager.init
  simp only
  split
  · exact ⟨⟨hs, hs⟩, ⟨hs, hs⟩⟩
  · split
    · refine ⟨⟨hs, hs⟩, ?_⟩
      simp only
      split
      · exact ⟨rfl, rfl⟩
      · exact ⟨hs, hs⟩
    · exact ⟨⟨hs, hs⟩, ⟨hs, hs⟩⟩

theorem handleLogin_paired (p : LoginPage) (username password : String)
    (outcome : FetchOutcome LoginData) (hs : p.storage.paired) :
    (handleLogin p username password outcome).storage.paired := by
  unfold handleLogin
  simp only
  split
  · exact hs
  · split
    · exact hs
    · exact hs
    · split
      · exact rfl
      · exact hs

theorem verifyTokenAndRedirect_paired {α : Type} (p : LoginPage) (token : String)
    (outcome : FetchOutcome α) (hs : p.storage.paired) :
    (verifyTokenAndRedirect p token outcome).storage.paired := by
  unfold verifyTokenAndRedirect
  simp only
  split
  · exact rfl
  · split
    · exact hs
    · exact rfl

/-- C7: "the token is set exactly when the username is set", read on the
storage keys `adminToken` / `adminUsername` and on the fields
`AuthManager.token` / `AuthManager.username`, is kept by every session
operation: `AuthManager.init` (at its return and after the verification has
settled), `clearAuth`, `logout`, the 401 callback of `apiRequest`, and on the
login page a login attempt (successful or not) and the check of a stored
token. -/
theorem session_pairing_preserved (α : Type) (b : Browser) (p : LoginPage)
    (hstorage : b.storage.paired) (hauth : b.auth.paired) (hlogin : p.storage.paired) :
    (∀ outcome : FetchOutcome α,
      ((AuthManager.init b outcome).started.storage.paired ∧
        (AuthManager.init b outcome).started.auth.paired) ∧
      ((AuthManager.init b outcome).settled.storage.paired ∧
        (AuthManager.init b outcome).settled.auth.paired)) ∧
    ((AuthManager.clearAuth b).storage.paired ∧ (AuthManager.clearAuth b).auth.paired) ∧
    (∀ confirmed : Bool,
      (AuthManager.logout b confirmed).storage.paired ∧
      (AuthManager.logout b confirmed).auth.paired) ∧
    ((runClearAuthAndRedirect b).storage.paired ∧ (runClearAuthAndRedirect b).auth.paired) ∧
    (∀ (username password : String) (outcome : FetchOutcome LoginData),
      (handleLogin p username password outcome).storage.paired) ∧
    (∀ (token : String) (outcome : FetchOutcome α),
      (verifyTokenAndRedirect p token outcome).storage.paired) ∧
    (∀ outcome : FetchOutcome α, (loginPageLoaded p outcome).storage.paired) := by
  refine ⟨fun outcome => init_paired b outcome hstorage, clearAuth_paired b, ?_,
    clearAuth_paired b, fun u pw outcome => handleLogin_paired p u pw outcome hlogin,
    fun token outcome => verifyTokenAndRedirect_paired p token outcome hlogin, ?_⟩
  · intro confirmed
    cases confirmed
    · exact ⟨hstorage, hauth⟩
    · exact clearAuth_paired b
  · intro outcome
    unfold loginPageLoaded
    split
    · split
      · exact hlogin
      · exact verifyTokenAndRedirect_paired p _ outcome hlogin
    · exact hlogin

/-- C7, at a concrete input: a successful login on a page with empty storage
leaves both keys set. -/
theorem session_pairing_preserved_witness :
    (handleLogin ⟨⟨none, none⟩, false, "Login", "", false, false, []⟩ "admin" "secret"
      (jsonOk ⟨"tok", "admin"⟩)).storage.paired :=
  (session_pairing_preserved Unit ⟨⟨some "old", some "admin"⟩, ⟨none, none⟩, "/", []⟩
    ⟨⟨none, none⟩, false, "Login", "", false, false, []⟩ rfl rfl rfl).2.2.2.2.1
    "admin" "secret" (jsonOk ⟨"tok", "admin"⟩)

/-! ### Bulk-ignore modal -/

theorem createModalRow_int (buildingId : String) (d : Device)
    (hd : (∃ n, d.id = some (.num n)) ∧ d.name.isSome = true) :
    createModalRow buildingId (some d) =
      some { itemId := numberToString d.intId
             buildingFrk := buildingId
             devicePrk := numberToString d.intId
             nameText := strOr d.name "" ++ " (ID: " ++ numberToString d.intId ++ ")"
             display := ""
             checked := d.is_ignored } := by
  obtain ⟨⟨n, hn⟩, hname⟩ := hd
  obtain ⟨name, hname⟩ := Option.isSome_iff_exists.mp hname
  simp [createModalRow, hn, hname, Device.intId, JsId.toStr]

theorem modal_rows_int (buildingId : String) (devs : List Device)
    (hvalid : ∀ d ∈ devs, (∃ n, d.id = some (.num n)) ∧ d.name.isSome = true) :
    (devs.map some).filterMap (createModalRow buildingId) =
      devs.map (fun d =>
        { itemId := numberToString d.intId
          buildingFrk := buildingId
          devicePrk := numberToString d.intId
          nameText := strOr d.name "" ++ " (ID: " ++ numberToString d.intId ++ ")"
          display := ""
          checked := d.is_ignored }) := by
  induction devs with
  | nil => rfl
  | cons d rest ih =>
    have hd := hvalid d (by simp)
    have hrest := ih (fun x hx => hvalid x (by simp [hx]))
    rw [List.map_cons, List.filterMap_cons, createModalRow_int buildingId d hd]
    simp only [List.map_cons]
    rw [hrest]

theorem collectItems_int (building : Int) (devs : List Device)
    (hbuilding : building.natAbs < 10 ^ 21)
    (hids : ∀ d ∈ devs, d.intId.natAbs < 10 ^ 21) :
    collectItems (devs.map (fun d =>
        ({ itemId := numberToString d.intId
           buildingFrk := numberToString building
           devicePrk := numberToString d.intId
           nameText := strOr d.name "" ++ " (ID: " ++ numberToString d.intId ++ ")"
           display := ""
           checked := d.is_ignored } : ModalRow))) =
      devs.map (expectedItem building) := by
  induction devs with
  | nil => rfl
  | cons d rest ih =>
    have hd := hids d (by simp)
    have ih2 := ih (fun x hx => hids x (by simp [hx]))
    unfold collectItems at ih2 ⊢
    rw [List.map_cons, List.filterMap_cons]
    simp only [parseInt_numberToString _ hd, parseInt_numberToString _ hbuilding]
    rw [ih2]
    rfl

theorem showModal_resolved (els : Elements) (auth : Session) (k : Nat) (buildingId : String)
    (m : Modal) (devices : FetchOutcome (List (Option Device))) (items : List (Option Device))
    (hfetch : resolvesTo devices items) :
    (showIgnoreSelectionModal els auth k buildingId m devices).2 =
      { id := k, buildingId := buildingId, allModalItemsLength := some items.length } ∧
    (showIgnoreSelectionModal els auth k buildingId m devices).1.modal.rows =
      items.filterMap (createModalRow buildingId) ∧
    (showIgnoreSelectionModal els auth k buildingId m devices).1.modal.confirmDisabled =
      decide (items.length = 0) := by
  obtain ⟨detail, hres⟩ := hfetch
  unfold showIgnoreSelectionModal
  simp only [apiRequest_result, hres]
  by_cases h0 : items.length = 0
  · have hnil : items = [] := List.length_eq_zero.mp h0
    subst hnil
    simp
  · simp [h0]

theorem confirmHandler_submits (els : Elements) (auth : Session) (inv : Invocation) (m : Modal)
    (card : Option Card) (bulk reevaluate : FetchOutcome Unit)
    (refresh : FetchOutcome (List (Option Device)))
    (hitems : (collectItems m.rows).length ≠ 0) :
    (succeeds bulk = false →
      (confirmHandler els auth inv m card bulk reevaluate refresh).requests =
        [apiFetchArgs auth "proevents/ignore/bulk" (bulkOptions (collectItems m.rows))]) ∧
    (succeeds bulk = true →
      (confirmHandler els auth inv m card bulk reevaluate refresh).requests =
        [apiFetchArgs auth "proevents/ignore/bulk" (bulkOptions (collectItems m.rows)),
         apiFetchArgs auth (reevaluateEndpoint inv.buildingId) reevaluateOptions] ∨
      ∃ c, card = some c ∧
        (confirmHandler els auth inv m card bulk reevaluate refresh).requests =
          [apiFetchArgs auth "proevents/ignore/bulk" (bulkOptions (collectItems m.rows)),
           apiFetchArgs auth (reevaluateEndpoint inv.buildingId) reevaluateOptions,
           apiFetchArgs auth (devicesEndpoint c.buildingId (trim c.searchValue))
             Options.empty]) := by
  constructor
  · intro hfail
    unfold succeeds at hfail
    unfold confirmHandler
    simp only [apiRequest_request, apiRequest_result, loadItemsForBuilding_requests, hitems,
      decide_False, Bool.false_and, Bool.and_false, Bool.false_eq_true, if_false]
    cases hres : (apiTry bulk).2 with
    | error e => rfl
    | ok v => rw [hres] at hfail; simp at hfail
  · intro hok
    unfold succeeds at hok
    cases hres : (apiTry bulk).2 with
    | error e => rw [hres] at hok; simp at hok
    | ok v =>
      cases card with
      | none =>
        left
        unfold confirmHandler
        simp only [apiRequest_request, apiRequest_result, hitems, hres,
          decide_False, Bool.false_and, Bool.and_false, Bool.false_eq_true, if_false]
        cases (apiTry reevaluate).2 <;> rfl
      | some c =>
        unfold confirmHandler
        simp only [apiRequest_request, apiRequest_result, loadItemsForBuilding_requests, hitems,
          hres, decide_False, Bool.false_and, Bool.and_false, Bool.false_eq_true, if_false]
        cases (apiTry reevaluate).2 with
        | error e => left; rfl
        | ok w =>
          simp only
          by_cases hbody : c.bodyDisplay = "none"
          · left
            simp [hbody]
          · right
            refine ⟨c, rfl, ?_⟩
            simp only [ne_eq, hbody, not_false_eq_true, if_true]
            split <;> rfl

theorem apiUrl_injective (e1 e2 : String)
    (h : API_BASE_URL ++ "/" ++ e1 = API_BASE_URL ++ "/" ++ e2) : e1 = e2 := by
  have hd := congrArg String.data h
  simp only [String.data_append] at hd
  exact String.ext (List.append_cancel_left hd)

theorem bulk_ne_reevaluate (buildingId : String) :
    "proevents/ignore/bulk" ≠ reevaluateEndpoint buildingId := by
  intro h
  have hd := congrArg String.data h
  simp only [reevaluateEndpoint, String.data_append] at hd
  exact absurd (List.head_eq_of_cons_eq hd) (by decide)

theorem devices_ne_reevaluate (buildingId search buildingId2 : String) :
    devicesEndpoint buildingId search ≠ reevaluateEndpoint buildingId2 := by
  intro h
  have hd := congrArg String.data h
  simp only [devicesEndpoint, reevaluateEndpoint, String.data_append] at hd
  exact absurd (List.head_eq_of_cons_eq hd) (by decide)

theorem bulk_request_eq (auth : Session) (items : List UpdateItem) :
    apiFetchArgs auth "proevents/ignore/bulk" (bulkOptions items) =
      { url := "http://127.0.0.1:7070/api/proevents/ignore/bulk"
        method := some "POST"
        headers := [("Content-Type", "application/json")]
        body := some (.bulk items) } := by
  have hh := bulk_headers auth items
  unfold apiFetchArgs at hh ⊢
  simp only at hh
  rw [hh]
  rfl

theorem reevaluate_request_eq (auth : Session) (buildingId : String) :
    apiFetchArgs auth (reevaluateEndpoint buildingId) reevaluateOptions =
      { url := "http://127.0.0.1:7070/api/buildings/" ++ buildingId ++ "/reevaluate"
        method := some "POST"
        headers := [("Content-Type", "application/json")]
        body := none } := by
  have hh := reevaluate_headers auth buildingId
  unfold apiFetchArgs at hh ⊢
  simp only at hh
  rw [hh]
  simp only [Request.mk.injEq, and_true, true_and]
  constructor
  · apply String.ext
    simp only [API_BASE_URL, reevaluateEndpoint, String.data_append, List.append_assoc]
    rfl
  · exact ⟨rfl, rfl⟩

/-- C8 (as stated, refuted): a device whose id is the integer 10^21 is rendered
with `dataset.itemId` "1e+21", which `parseInt` reads as 1: confirming the
modal of building 4 submits `item_id = device_prk = 1`, not the device's
id. -/
theorem confirm_submits_truncated_id :
    (openAndConfirm ⟨true⟩ ⟨some "tok", some "admin"⟩ 1 (numberToString 4) Modal.initial
        (jsonOk [some (sampleDevice (10 ^ 21) "Door" true)])
        none (jsonOk ()) (jsonOk ()) (jsonOk [])).requests.head? =
      some { url := "http://127.0.0.1:7070/api/proevents/ignore/bulk"
             method := some "POST"
             headers := [("Content-Type", "application/json")]
             body := some (.bulk [⟨1, 4, 1, true⟩]) } ∧
    (sampleDevice (10 ^ 21) "Door" true).intId = 10 ^ 21 ∧
    numberToString (10 ^ 21) = "1e+21" ∧
    parseInt "1e+21" = some 1 := by
  decide

/-- C8 (amended): for every fetched device array whose devices all have a
defined name and an integer id of magnitude below 10^21, and every integer
building id of magnitude below 10^21, when the confirm button can be clicked
after the modal has opened (which is the case exactly when the array is not
empty), confirming without touching a checkbox sends first, and once, the
bulk request, whose `items` follow the rendered rows in length and order: the
k-th has `item_id = device_prk` = the k-th device's id, `building_frk` = the
building id and `ignore` = that device's ignore flag. When the bulk request
succeeds the re-evaluate request of the building comes second and is sent
exactly once; when it fails nothing else is sent. -/
theorem confirm_submits_rows (els : Elements) (auth : Session) (k : Nat) (building : Int)
    (m : Modal) (devs : List Device) (devices : FetchOutcome (List (Option Device)))
    (card : Option Card) (bulk reevaluate : FetchOutcome Unit)
    (refresh : FetchOutcome (List (Option Device)))
    (hvalid : ∀ d ∈ devs, (∃ n, d.id = some (.num n)) ∧ d.name.isSome = true)
    (hids : ∀ d ∈ devs, d.intId.natAbs < 10 ^ 21)
    (hbuilding : building.natAbs < 10 ^ 21)
    (hfetch : resolvesTo devices (devs.map some))
    (henabled : (showIgnoreSelectionModal els auth k (numberToString building) m
      devices).1.modal.confirmDisabled = false) :
    let opened := (showIgnoreSelectionModal els auth k (numberToString building) m devices).1.modal
    let run := openAndConfirm els auth k (numberToString building) m devices card bulk reevaluate
      refresh
    let bulkRequest : Request :=
      { url := "http://127.0.0.1:7070/api/proevents/ignore/bulk"
        method := some "POST"
        headers := [("Content-Type", "application/json")]
        body := some (.bulk (devs.map (expectedItem building))) }
    let reevaluateRequest : Request :=
      { url := "http://127.0.0.1:7070/api/buildings/" ++ numberToString building ++ "/reevaluate"
        method := some "POST"
        headers := [("Content-Type", "application/json")]
        body := none }
    devs ≠ [] ∧
    opened.rows.map (fun r => r.checked) = devs.map (fun d => d.is_ignored) ∧
    (devs.map (expectedItem building)).length = opened.rows.length ∧
    run.requests.head? = some bulkRequest ∧
    (run.requests.filter (fun r => decide (r.url = bulkRequest.url))).length = 1 ∧
    (succeeds bulk = true →
      run.requests.take 2 = [bulkRequest, reevaluateRequest] ∧
      (run.requests.filter (fun r => decide (r.url = reevaluateRequest.url))).length = 1) ∧
    (succeeds bulk = false → run.requests = [bulkRequest]) := by
  intro opened run bulkRequest reevaluateRequest
  obtain ⟨hinv, hrows, hdis⟩ :=
    showModal_resolved els auth k (numberToString building) m devices (devs.map some) hfetch
  have hne : devs ≠ [] := by
    intro hnil
    rw [hdis, hnil] at henabled
    simp at henabled
  have hrows2 := modal_rows_int (numberToString building) devs hvalid
  have hitems : collectItems opened.rows = devs.map (expectedItem building) := by
    show collectItems (showIgnoreSelectionModal els auth k (numberToString building) m
      devices).1.modal.rows = _
    rw [hrows, hrows2, collectItems_int building devs hbuilding hids]
  have hlen : (collectItems opened.rows).length ≠ 0 := by
    rw [hitems, List.length_map]
    exact fun h => hne (List.length_eq_zero.mp h)
  have hsub := confirmHandler_submits els auth
    (showIgnoreSelectionModal els auth k (numberToString building) m devices).2 opened card bulk
    reevaluate refresh hlen
  rw [hitems, bulk_request_eq, hinv] at hsub
  simp only [reevaluate_request_eq] at hsub
  have hrun : run.requests = (confirmHandler els auth
      (showIgnoreSelectionModal els auth k (numberToString building) m devices).2 opened card bulk
      reevaluate refresh).requests := rfl
  rw [hinv] at hrun
  have hurl1 : bulkRequest.url ≠ reevaluateRequest.url := by
    intro h
    have h2 : API_BASE_URL ++ "/" ++ "proevents/ignore/bulk" =
        API_BASE_URL ++ "/" ++ reevaluateEndpoint (numberToString building) := by
      have e1 := congrArg Request.url (bulk_request_eq auth [])
      have e2 := congrArg Request.url (reevaluate_request_eq auth (numberToString building))
      exact e1.trans (h.trans e2.symm)
    exact bulk_ne_reevaluate _ (apiUrl_injective _ _ h2)
  have hurl2 : ∀ c : Card,
      (apiFetchArgs auth (devicesEndpoint c.buildingId (trim c.searchValue)) Options.empty).url ≠
        reevaluateRequest.url := by
    intro c h
    have e2 := congrArg Request.url (reevaluate_request_eq auth (numberToString building))
    exact devices_ne_reevaluate _ _ _ (apiUrl_injective _ _ (h.trans e2.symm))
  have hurl3 : ∀ c : Card,
      (apiFetchArgs auth (devicesEndpoint c.buildingId (trim c.searchValue)) Options.empty).url ≠
        bulkRequest.url := by
    intro c h
    have e1 := congrArg Request.url (bulk_request_eq auth [])
    have h3 := apiUrl_injective _ _ (h.trans e1.symm)
    have hd := congrArg String.data h3
    simp only [devicesEndpoint, String.data_append] at hd
    exact absurd (List.head_eq_of_cons_eq hd) (by decide)
  have hcases : run.requests = [bulkRequest] ∨ run.requests = [bulkRequest, reevaluateRequest] ∨
      ∃ c : Card, run.requests = [bulkRequest, reevaluateRequest,
        apiFetchArgs auth (devicesEndpoint c.buildingId (trim c.searchValue)) Options.empty] := by
    rw [hrun]
    cases hb : succeeds bulk with
    | false => exact Or.inl (hsub.1 hb)
    | true =>
      rcases hsub.2 hb with h | ⟨c, _, h⟩
      · exact Or.inr (Or.inl h)
      · exact Or.inr (Or.inr ⟨c, h⟩)
  refine ⟨hne, ?_, ?_, ?_, ?_, ?_, ?_⟩
  · show (showIgnoreSelectionModal els auth k (numberToString building) m
      devices).1.modal.rows.map _ = _
    rw [hrows, hrows2, List.map_map]
    rfl
  · rw [← hitems]
    show (collectItems (showIgnoreSelectionModal els auth k (numberToString building) m
      devices).1.modal.rows).length = (showIgnoreSelectionModal els auth k
      (numberToString building) m devices).1.modal.rows.length
    rw [hrows, hrows2, collectItems_int building devs hbuilding hids, List.length_map,
      List.length_map]
  · rcases hcases with h | h | ⟨c, h⟩ <;> rw [h] <;> rfl
  · have hne1 : ¬ reevaluateRequest.url = bulkRequest.url := fun h => hurl1 h.symm
    rcases hcases with h | h | ⟨c, h⟩
    · rw [h]; simp [List.filter]
    · rw [h]; simp [List.filter, hne1]
    · rw [h]; simp [List.filter, hne1, hurl3 c]
  · intro hb
    rw [hrun]
    rcases hsub.2 hb with h | ⟨c, _, h⟩
    · rw [h]
      refine ⟨rfl, ?_⟩
      simp [List.filter, hurl1]
    · rw [h]
      refine ⟨rfl, ?_⟩
      simp [List.filter, hurl1, hurl2 c]
  · intro hb
    rw [hrun]
    exact hsub.1 hb

/-- C8 (amended), at a concrete input: building 4 with three devices whose
ignore flags are true, true, false; the bulk request carries the `ignore`
values true, true, false in row order. -/
theorem confirm_submits_rows_witness :
    (openAndConfirm ⟨true⟩ ⟨some "tok", some "admin"⟩ 1 (numberToString 4) Modal.initial
        (jsonOk [some (sampleDevice 11 "Door" true), some (sampleDevice 12 "Gate" true),
          some (sampleDevice 13 "Hall" false)])
        none (jsonOk ()) (jsonOk ()) (jsonOk [])).requests.head? =
      some { url := "http://127.0.0.1:7070/api/proevents/ignore/bulk"
             method := some "POST"
             headers := [("Content-Type", "application/json")]
             body := some (.bulk [⟨11, 4, 11, true⟩, ⟨12, 4, 12, true⟩, ⟨13, 4, 13, false⟩]) } :=
  (confirm_submits_rows ⟨true⟩ ⟨some "tok", some "admin"⟩ 1 4 Modal.initial
    [sampleDevice 11 "Door" true, sampleDevice 12 "Gate" true, sampleDevice 13 "Hall" false]
    (jsonOk [some (sampleDevice 11 "Door" true), some (sampleDevice 12 "Gate" true),
      some (sampleDevice 13 "Hall" false)])
    none (jsonOk ()) (jsonOk ()) (jsonOk [])
    (by
      intro d hd
      simp only [List.mem_cons, List.mem_singleton, List.not_mem_nil, or_false] at hd
      rcases hd with rfl | rfl | rfl <;> exact ⟨⟨_, rfl⟩, rfl⟩)
    (by
      intro d hd
      simp only [List.mem_cons, List.mem_singleton, List.not_mem_nil, or_false] at hd
      rcases hd with rfl | rfl | rfl <;> decide)
    (by decide) ⟨none, rfl⟩ rfl).2.2.2.1

theorem includes_empty (s : String) : includes s "" = true := by
  unfold includes
  cases h : s.data with
  | nil => rfl
  | cons c tl => simp [List.tails]

theorem modalSearchInput_rows (lower : String → String) (m : Modal) (value : String) :
    (modalSearchInput lower m value).rows =
      m.rows.map (fun r =>
        { r with display := if rowMatches lower (lower value) r then "flex" else "none" }) := rfl

theorem modalSelectAllClick_rows (m : Modal) :
    (modalSelectAllClick m).rows =
      m.rows.map (fun r =>
        if r.display ≠ "none" then
          { r with checked := decide (m.selectAllText = "Select All") }
        else r) := rfl

/-- C9: for every list of modal rows with any checkbox states and every filter
query, filtering, clicking the Select All / Deselect All toggle and clearing
the filter leaves the checked state of every row the filter had hidden as it
was; in any state of the modal the toggle leaves every hidden row
untouched and sets the checkbox of every other row to the toggle's value.
This holds whatever function `lower` the filter lower-cases with. -/
theorem select_all_spares_hidden_rows (lower : String → String) (m : Modal) (query : String) :
    let filtered := modalSearchInput lower m query
    let toggled := modalSelectAllClick filtered
    let cleared := modalSearchInput lower toggled ""
    cleared.rows.length = m.rows.length ∧
    (∀ (i : Nat) (r : ModalRow), m.rows[i]? = some r →
      rowMatches lower (lower query) r = false →
        (filtered.rows[i]?).map (fun x => x.display) = some "none" ∧
        (cleared.rows[i]?).map (fun x => x.checked) = some r.checked) ∧
    (∀ (i : Nat) (r : ModalRow), m.rows[i]? = some r →
      rowMatches lower (lower query) r = true →
        (cleared.rows[i]?).map (fun x => x.checked) =
          some (decide (filtered.selectAllText = "Select All"))) ∧
    (∀ (any : Modal) (i : Nat) (r : ModalRow), any.rows[i]? = some r →
      (r.display = "none" → (modalSelectAllClick any).rows[i]? = some r) ∧
      (r.display ≠ "none" → (modalSelectAllClick any).rows[i]? =
        some { r with checked := decide (any.selectAllText = "Select All") })) := by
  intro filtered toggled cleared
  refine ⟨?_, ?_, ?_, ?_⟩
  · simp [cleared, toggled, filtered, modalSearchInput_rows, modalSelectAllClick_rows]
  · intro i r hr hhid
    constructor
    · simp [filtered, modalSearchInput_rows, List.getElem?_map, hr, hhid]
    · simp [cleared, toggled, modalSearchInput_rows, modalSelectAllClick_rows, filtered,
        List.getElem?_map, hr, hhid]
  · intro i r hr hvis
    simp only [cleared, toggled, modalSearchInput_rows, modalSelectAllClick_rows,
      List.getElem?_map, List.map_map, Option.map_map]
    have hf : filtered.rows[i]? = some { r with display := "flex" } := by
      simp [filtered, modalSearchInput_rows, List.getElem?_map, hr, hvis]
    rw [hf]
    simp
  · intro any i r hr
    constructor
    · intro hnone
      simp [modalSelectAllClick_rows, List.getElem?_map, hr, hnone]
    · intro hvis
      simp [modalSelectAllClick_rows, List.getElem?_map, hr, hvis]

/-! ### Lazy loading of device lists -/

theorem updateBuildingStatus_frame (c : Card) :
    (updateBuildingStatus c).children = c.children ∧
    (updateBuildingStatus c).bodyDisplay = c.bodyDisplay ∧
    (updateBuildingStatus c).loaded = c.loaded ∧
    (updateBuildingStatus c).buildingId = c.buildingId := by
  unfold updateBuildingStatus
  simp only
  split
  · exact ⟨rfl, rfl, rfl, rfl⟩
  · split
    · exact ⟨rfl, rfl, rfl, rfl⟩
    · split <;> exact ⟨rfl, rfl, rfl, rfl⟩

theorem loadItems_resolved (els : Elements) (auth : Session) (card : Card) (reset : Bool)
    (search : String) (outcome : FetchOutcome (List (Option Device)))
    (items : List (Option Device)) (hfetch : resolvesTo outcome items) :
    (loadItemsForBuilding els auth card reset search outcome).threw = none ∧
    (loadItemsForBuilding els auth card reset search outcome).card.children =
      (if items.length = 0 then
        [mutedLi (if search ≠ "" then "No proevents found matching search."
                  else "No proevents found.")]
       else items.filterMap createItem) ∧
    (loadItemsForBuilding els auth card reset search outcome).card.bodyDisplay =
      card.bodyDisplay ∧
    (loadItemsForBuilding els auth card reset search outcome).card.buildingId =
      card.buildingId := by
  obtain ⟨detail, hres⟩ := hfetch
  unfold loadItemsForBuilding
  simp only [apiRequest_result, hres, asArray]
  by_cases h0 : items.length = 0
  · simp only [h0, if_true]
    refine ⟨trivial, ?_, ?_, ?_⟩
    · rw [(updateBuildingStatus_frame _).1]
    · rw [(updateBuildingStatus_frame _).2.1]
      cases reset <;> rfl
    · rw [(updateBuildingStatus_frame _).2.2.2]
      cases reset <;> rfl
  · simp only [h0, if_false]
    refine ⟨trivial, ?_, ?_, ?_⟩
    · rw [(updateBuildingStatus_frame _).1]
    · rw [(updateBuildingStatus_frame _).2.1]
      cases reset <;> rfl
    · rw [(updateBuildingStatus_frame _).2.2.2]
      cases reset <;> rfl

theorem toggle_collapsed_new (els : Elements) (auth : Session) (b : Building)
    (outcome : FetchOutcome (List (Option Device))) :
    (toggleVisibility els auth (createBuildingCard b) outcome).requests =
      [apiFetchArgs auth (devicesEndpoint (numberToString b.id) "") Options.empty] := by
  unfold toggleVisibility
  have hn : needsLoad (createBuildingCard b) = true := rfl
  have hb : (createBuildingCard b).bodyDisplay = "none" := rfl
  simp only [hn, hb, if_true]
  split <;> rfl

theorem toggle_expanded (els : Elements) (auth : Session) (card : Card)
    (outcome : FetchOutcome (List (Option Device))) (h : card.bodyDisplay ≠ "none") :
    toggleVisibility els auth card outcome =
      { card := { card with bodyDisplay := "none", toggleText := "+" }
        requests := [], effects := [] } := by
  unfold toggleVisibility
  rw [if_neg h]

theorem toggle_first_resolved (els : Elements) (auth : Session) (b : Building)
    (outcome : FetchOutcome (List (Option Device))) (items : List (Option Device))
    (hfetch : resolvesTo outcome items) :
    (toggleVisibility els auth (createBuildingCard b) outcome).card.bodyDisplay = "block" ∧
    (toggleVisibility els auth (createBuildingCard b) outcome).card.loaded = some "true" ∧
    (toggleVisibility els auth (createBuildingCard b) outcome).card.buildingId =
      numberToString b.id ∧
    (toggleVisibility els auth (createBuildingCard b) outcome).card.children =
      (if items.length = 0 then [mutedLi "No proevents found."]
       else items.filterMap createItem) := by
  obtain ⟨hthrew, hchildren, _, hid⟩ :=
    loadItems_resolved els auth (createBuildingCard b) false "" outcome items hfetch
  unfold toggleVisibility
  have hn : needsLoad (createBuildingCard b) = true := rfl
  have hb : (createBuildingCard b).bodyDisplay = "none" := rfl
  simp only [hn, hb, if_true, hthrew]
  refine ⟨trivial, trivial, hid, ?_⟩
  simpa using hchildren

theorem needsLoad_loaded (card : Card) (items : List (Option Device))
    (hloaded : card.loaded = some "true")
    (hchildren : card.children =
      (if items.length = 0 then [mutedLi "No proevents found."]
       else items.filterMap createItem)) :
    needsLoad card = decide (items.filterMap createItem = []) := by
  unfold needsLoad
  rw [hloaded, hchildren]
  by_cases h0 : items.length = 0
  · have hnil : items = [] := List.length_eq_zero.mp h0
    subst hnil
    rfl
  · rw [if_neg h0]
    cases hrows : items.filterMap createItem with
    | nil => rfl
    | cons li rest =>
      have hmem : li ∈ items.filterMap createItem := by rw [hrows]; simp
      have hcl := rows_classList items li hmem
      simp only [hcl]
      rfl

/-- C10 (as stated, refuted): for a building whose device fetch returns no
device, expanding the card, collapsing it and expanding it again issues a
second device fetch. -/
theorem second_expansion_refetches_empty :
    (toggleVisibility ⟨true⟩ ⟨some "tok", some "admin"⟩
      (toggleVisibility ⟨true⟩ ⟨some "tok", some "admin"⟩
        (toggleVisibility ⟨true⟩ ⟨some "tok", some "admin"⟩
          (createBuildingCard ⟨3, "Depot", none⟩) (jsonOk [])).card
        (jsonOk [])).card
      (jsonOk [])).requests.length = 1 := by
  decide

/-- C10 (amended): for every building card rendered collapsed, the first
expansion issues exactly one device fetch whatever its outcome. When that
fetch succeeded, collapsing the card issues none, and expanding it again
issues none if the first fetch rendered at least one device row, and exactly
one more if it rendered none (no device, or no entry with id and name), where
the list holds the placeholder row or nothing. -/
theorem second_expansion_fetches (els : Elements) (auth : Session) (b : Building)
    (first second third : FetchOutcome (List (Option Device)))
    (items : List (Option Device)) (hfirst : resolvesTo first items) :
    let fetchDevices := apiFetchArgs auth (devicesEndpoint (numberToString b.id) "")
      Options.empty
    let expanded := toggleVisibility els auth (createBuildingCard b) first
    let collapsed := toggleVisibility els auth expanded.card second
    let again := toggleVisibility els auth collapsed.card third
    (∀ outcome, (toggleVisibility els auth (createBuildingCard b) outcome).requests =
      [fetchDevices]) ∧
    expanded.card.bodyDisplay = "block" ∧
    collapsed.requests = [] ∧
    collapsed.card.bodyDisplay = "none" ∧
    again.requests = (if items.filterMap createItem = [] then [fetchDevices] else []) := by
  intro fetchDevices expanded collapsed again
  obtain ⟨hbody, hloaded, hid, hchildren⟩ := toggle_first_resolved els auth b first items hfirst
  have hvisible : expanded.card.bodyDisplay ≠ "none" := by
    show (toggleVisibility els auth (createBuildingCard b) first).card.bodyDisplay ≠ "none"
    rw [hbody]
    decide
  have hcollapsed : collapsed =
      { card := { expanded.card with bodyDisplay := "none", toggleText := "+" }
        requests := [], effects := [] } :=
    toggle_expanded els auth expanded.card second hvisible
  have hneeds : needsLoad collapsed.card = decide (items.filterMap createItem = []) := by
    rw [hcollapsed]
    exact needsLoad_loaded _ items hloaded hchildren
  refine ⟨fun outcome => toggle_collapsed_new els auth b outcome, hbody, ?_, ?_, ?_⟩
  · rw [hcollapsed]
  · rw [hcollapsed]
  · show (toggleVisibility els auth collapsed.card third).requests = _
    have hcb : collapsed.card.bodyDisplay = "none" := by rw [hcollapsed]
    have hcid : collapsed.card.buildingId = numberToString b.id := by
      rw [hcollapsed]; exact hid
    unfold toggleVisibility
    rw [if_pos hcb, hneeds]
    by_cases hrows : items.filterMap createItem = []
    · simp only [hrows, decide_True, if_true]
      split <;> simp only [loadItemsForBuilding_requests, hcid]
    · simp only [hrows, decide_False, Bool.false_eq_true, if_false]

/-- C10 (amended), at a concrete input: a building with two devices is
fetched once; the second expansion sends nothing. -/
theorem second_expansion_fetches_witness :
    (toggleVisibility ⟨true⟩ ⟨some "tok", some "admin"⟩
      (toggleVisibility ⟨true⟩ ⟨some "tok", some "admin"⟩
        (toggleVisibility ⟨true⟩ ⟨some "tok", some "admin"⟩
          (createBuildingCard ⟨3, "Depot", none⟩)
          (jsonOk [some (sampleDevice 11 "Door" true), some (sampleDevice 12 "Gate" false)])).card
        (jsonOk [])).card
      (jsonOk [])).requests = [] :=
  (second_expansion_fetches ⟨true⟩ ⟨some "tok", some "admin"⟩ ⟨3, "Depot", none⟩
    (jsonOk [some (sampleDevice 11 "Door" true), some (sampleDevice 12 "Gate" false)])
    (jsonOk []) (jsonOk [])
    [some (sampleDevice 11 "Door" true), some (sampleDevice 12 "Gate" false)]
    ⟨none, rfl⟩).2.2.2.2

/-! ### Modal submission -/

theorem apiTry_unauthorized {α : Type} (outcome : FetchOutcome α)
    (h : isUnauthorized outcome = true) :
    apiTry outcome =
      ([.showNotification "Session expired. Please login again." true,
        .setTimeout .clearAuthAndRedirect 2000], .error "Unauthorized") := by
  cases outcome with
  | networkError m => simp [isUnauthorized] at h
  | response r =>
    have hs : r.status = 401 := by simpa [isUnauthorized] using h
    simp [apiTry, hs]

theorem apiTry_no_timer {α : Type} (outcome : FetchOutcome α)
    (h : isUnauthorized outcome = false) :
    (apiTry outcome).1 = [] := by
  cases outcome with
  | networkError m => rfl
  | response r =>
    have hs : ¬ r.status = 401 := by simpa [isUnauthorized] using h
    unfold apiTry
    simp only [hs, if_false]
    repeat' split
    all_goals rfl

theorem succeeds_not_unauthorized {α : Type} (outcome : FetchOutcome α)
    (h : succeeds outcome = true) : isUnauthorized outcome = false := by
  cases hu : isUnauthorized outcome with
  | false => rfl
  | true =>
    rw [succeeds, apiTry_unauthorized outcome hu] at h
    simp at h

theorem apiRequest_timers {α : Type} (els : Elements) (auth : Session) (endpoint : String)
    (options : Options) (outcome : FetchOutcome α) :
    (apiRequest els auth endpoint options outcome).effects.filter Effect.isTimer =
      if isUnauthorized outcome then [.setTimeout .clearAuthAndRedirect 2000] else [] := by
  cases hu : isUnauthorized outcome with
  | true =>
    unfold apiRequest
    simp only [apiTry_unauthorized outcome hu]
    cases els.loader <;> simp [List.filter, Effect.isTimer]
  | false =>
    have h1 := apiTry_no_timer outcome hu
    unfold apiRequest
    simp only [h1]
    cases els.loader <;> cases (apiTry outcome).2 <;> simp [List.filter, Effect.isTimer]

theorem confirmHandler_failure (els : Elements) (auth : Session) (inv : Invocation) (m : Modal)
    (card : Option Card) (bulk reevaluate : FetchOutcome Unit)
    (refresh : FetchOutcome (List (Option Device)))
    (hitems : (collectItems m.rows).length ≠ 0) :
    (succeeds bulk = false →
      confirmHandler els auth inv m card bulk reevaluate refresh =
        { modal := { m with confirmDisabled := false, cancelDisabled := false }
          card := card
          requests :=
            [apiFetchArgs auth "proevents/ignore/bulk" (bulkOptions (collectItems m.rows))]
          effects := (apiRequest els auth "proevents/ignore/bulk"
            (bulkOptions (collectItems m.rows)) bulk).effects }) ∧
    (succeeds bulk = true → succeeds reevaluate = false →
      confirmHandler els auth inv m card bulk reevaluate refresh =
        { modal := { m with confirmDisabled := false, cancelDisabled := false }
          card := card
          requests :=
            [apiFetchArgs auth "proevents/ignore/bulk" (bulkOptions (collectItems m.rows)),
             apiFetchArgs auth (reevaluateEndpoint inv.buildingId) reevaluateOptions]
          effects := (apiRequest els auth "proevents/ignore/bulk"
              (bulkOptions (collectItems m.rows)) bulk).effects ++
            [.showNotification "Ignore settings saved. Applying changes..." false] ++
            (apiRequest els auth (reevaluateEndpoint inv.buildingId) reevaluateOptions
              reevaluate).effects }) := by
  constructor
  · intro hfail
    unfold succeeds at hfail
    unfold confirmHandler
    simp only [apiRequest_request, apiRequest_result, hitems,
      decide_False, Bool.false_and, Bool.and_false, Bool.false_eq_true, if_false]
    cases hres : (apiTry bulk).2 with
    | error e => rfl
    | ok v => rw [hres] at hfail; simp at hfail
  · intro hok hfail
    unfold succeeds at hok hfail
    unfold confirmHandler
    simp only [apiRequest_request, apiRequest_result, hitems,
      decide_False, Bool.false_and, Bool.and_false, Bool.false_eq_true, if_false]
    cases hres : (apiTry bulk).2 with
    | error e => rw [hres] at hok; simp at hok
    | ok v =>
      cases hres2 : (apiTry reevaluate).2 with
      | error e => rfl
      | ok w => rw [hres2] at hfail; simp at hfail

theorem unauthorized_fails {α : Type} (outcome : FetchOutcome α)
    (h : isUnauthorized outcome = true) : succeeds outcome = false := by
  cases hs : succeeds outcome with
  | false => rfl
  | true => rw [succeeds_not_unauthorized outcome hs] at h; cases h

/-- C11 (as stated, refuted): a 401 answer to the bulk request of a modal
submission leaves the modal open with the confirm and cancel buttons enabled
again, so the local recovery of the confirm handler has run. -/
theorem unauthorized_submission_reenables :
    ((openAndConfirm ⟨true⟩ ⟨some "tok", some "admin"⟩ 1 (numberToString 5) Modal.initial
        (jsonOk [some (sampleDevice 1 "Door" true)]) none (respondsWith 401) (jsonOk ())
        (jsonOk [])).modal.confirmDisabled,
     (openAndConfirm ⟨true⟩ ⟨some "tok", some "admin"⟩ 1 (numberToString 5) Modal.initial
        (jsonOk [some (sampleDevice 1 "Door" true)]) none (respondsWith 401) (jsonOk ())
        (jsonOk [])).modal.cancelDisabled,
     (openAndConfirm ⟨true⟩ ⟨some "tok", some "admin"⟩ 1 (numberToString 5) Modal.initial
        (jsonOk [some (sampleDevice 1 "Door" true)]) none (respondsWith 401) (jsonOk ())
        (jsonOk [])).modal.display) = (false, false, "block") := by
  decide

/-- C11 (amended): when the bulk request or the re-evaluate request of a modal
submission receives a 401, `apiRequest` schedules the one timer of 2000 ms
that clears the session and redirects, and rejects; the `catch` block of the
confirm handler then runs as for any other failure: it enables the confirm and
cancel buttons again and leaves the modal, its rows and the card as they
were. -/
theorem unauthorized_submission_recovers (els : Elements) (auth : Session) (inv : Invocation)
    (m : Modal) (card : Option Card) (bulk reevaluate : FetchOutcome Unit)
    (refresh : FetchOutcome (List (Option Device)))
    (hitems : (collectItems m.rows).length ≠ 0) :
    (isUnauthorized bulk = true →
      (confirmHandler els auth inv m card bulk reevaluate refresh).modal =
        { m with confirmDisabled := false, cancelDisabled := false } ∧
      (confirmHandler els auth inv m card bulk reevaluate refresh).card = card ∧
      (confirmHandler els auth inv m card bulk reevaluate refresh).requests =
        [apiFetchArgs auth "proevents/ignore/bulk" (bulkOptions (collectItems m.rows))] ∧
      (confirmHandler els auth inv m card bulk reevaluate refresh).effects.filter
        Effect.isTimer = [.setTimeout .clearAuthAndRedirect 2000]) ∧
    (succeeds bulk = true → isUnauthorized reevaluate = true →
      (confirmHandler els auth inv m card bulk reevaluate refresh).modal =
        { m with confirmDisabled := false, cancelDisabled := false } ∧
      (confirmHandler els auth inv m card bulk reevaluate refresh).card = card ∧
      (confirmHandler els auth inv m card bulk reevaluate refresh).requests =
        [apiFetchArgs auth "proevents/ignore/bulk" (bulkOptions (collectItems m.rows)),
         apiFetchArgs auth (reevaluateEndpoint inv.buildingId) reevaluateOptions] ∧
      (confirmHandler els auth inv m card bulk reevaluate refresh).effects.filter
        Effect.isTimer = [.setTimeout .clearAuthAndRedirect 2000]) := by
  obtain ⟨hfail1, hfail2⟩ :=
    confirmHandler_failure els auth inv m card bulk reevaluate refresh hitems
  constructor
  · intro hu
    rw [hfail1 (unauthorized_fails bulk hu)]
    refine ⟨rfl, rfl, rfl, ?_⟩
    simp only [apiRequest_timers, hu, if_true]
  · intro hok hu
    rw [hfail2 hok (unauthorized_fails reevaluate hu)]
    refine ⟨rfl, rfl, rfl, ?_⟩
    simp only [List.filter_append, apiRequest_timers, hu, succeeds_not_unauthorized bulk hok,
      if_true]
    simp [List.filter, Effect.isTimer]

/-- C11 (amended), at a concrete input: one rendered row, the bulk request
answered with 401. -/
theorem unauthorized_submission_recovers_witness :
    (confirmHandler ⟨true⟩ ⟨some "tok", some "admin"⟩ ⟨1, "5", some 1⟩
        { Modal.initial with rows := [⟨"1", "5", "1", "Door (ID: 1)", "", true⟩] } none
        (respondsWith 401) (jsonOk ()) (jsonOk [])).modal =
      { Modal.initial with rows := [⟨"1", "5", "1", "Door (ID: 1)", "", true⟩] } :=
  ((unauthorized_submission_recovers ⟨true⟩ ⟨some "tok", some "admin"⟩ ⟨1, "5", some 1⟩
    { Modal.initial with rows := [⟨"1", "5", "1", "Door (ID: 1)", "", true⟩] } none
    (respondsWith 401) (jsonOk ()) (jsonOk []) (by decide)).1 rfl).1

/-- C13: in a modal submission the re-evaluate request is sent only when the
bulk request has succeeded, and after it. If the bulk request fails it is the
only request sent; if the re-evaluate request fails the two are the only
requests sent (no refresh of the card's list). In both cases the confirm and
cancel buttons are enabled again and everything else in the modal (its
visibility, rows, handlers) and the card are as before the click. -/
theorem submission_stops_at_failure (els : Elements) (auth : Session) (inv : Invocation)
    (m : Modal) (card : Option Card) (bulk reevaluate : FetchOutcome Unit)
    (refresh : FetchOutcome (List (Option Device)))
    (hitems : (collectItems m.rows).length ≠ 0) :
    (succeeds bulk = false →
      (confirmHandler els auth inv m card bulk reevaluate refresh).requests =
        [apiFetchArgs auth "proevents/ignore/bulk" (bulkOptions (collectItems m.rows))] ∧
      (confirmHandler els auth inv m card bulk reevaluate refresh).modal =
        { m with confirmDisabled := false, cancelDisabled := false } ∧
      (confirmHandler els auth inv m card bulk reevaluate refresh).card = card) ∧
    (succeeds bulk = true → succeeds reevaluate = false →
      (confirmHandler els auth inv m card bulk reevaluate refresh).requests =
        [apiFetchArgs auth "proevents/ignore/bulk" (bulkOptions (collectItems m.rows)),
         apiFetchArgs auth (reevaluateEndpoint inv.buildingId) reevaluateOptions] ∧
      (confirmHandler els auth inv m card bulk reevaluate refresh).modal =
        { m with confirmDisabled := false, cancelDisabled := false } ∧
      (confirmHandler els auth inv m card bulk reevaluate refresh).card = card) ∧
    (apiFetchArgs auth (reevaluateEndpoint inv.buildingId) reevaluateOptions ∈
        (confirmHandler els auth inv m card bulk reevaluate refresh).requests →
      succeeds bulk = true) := by
  obtain ⟨hfail1, hfail2⟩ :=
    confirmHandler_failure els auth inv m card bulk reevaluate refresh hitems
  refine ⟨fun hb => ?_, fun hb hr => ?_, fun hmem => ?_⟩
  · rw [hfail1 hb]
    exact ⟨rfl, rfl, rfl⟩
  · rw [hfail2 hb hr]
    exact ⟨rfl, rfl, rfl⟩
  · cases hb : succeeds bulk with
    | true => rfl
    | false =>
      rw [hfail1 hb] at hmem
      simp only [List.mem_singleton] at hmem
      have hurl := congrArg Request.url hmem
      exact absurd (apiUrl_injective _ _ hurl).symm (bulk_ne_reevaluate inv.buildingId)

/-- C13, at a concrete input: one rendered row, the bulk request answered
with status 500. -/
theorem submission_stops_at_failure_witness :
    (confirmHandler ⟨true⟩ ⟨some "tok", some "admin"⟩ ⟨1, "5", some 1⟩
        { Modal.initial with rows := [⟨"1", "5", "1", "Door (ID: 1)", "", true⟩] } none
        (respondsWith 500) (jsonOk ()) (jsonOk [])).requests =
      [apiFetchArgs ⟨some "tok", some "admin"⟩ "proevents/ignore/bulk"
        (bulkOptions [⟨1, 5, 1, true⟩])] :=
  ((submission_stops_at_failure ⟨true⟩ ⟨some "tok", some "admin"⟩ ⟨1, "5", some 1⟩
    { Modal.initial with rows := [⟨"1", "5", "1", "Door (ID: 1)", "", true⟩] } none
    (respondsWith 500) (jsonOk ()) (jsonOk []) (by decide)).1 rfl).1

/-! ### Modal filter -/

theorem includes_iff (s q : String) : includes s q = true ↔ q.data <:+: s.data := by
  unfold includes
  rw [List.any_eq_true]
  constructor
  · rintro ⟨t, ht, hp⟩
    have hsuf : t <:+ s.data := (List.mem_tails _ _).mp ht
    have hpre : q.data <+: t := List.isPrefixOf_iff_prefix.mp hp
    exact hpre.isInfix.trans hsuf.isInfix
  · rintro ⟨pre, post, h⟩
    refine ⟨q.data ++ post, (List.mem_tails _ _).mpr ⟨pre, by rw [← h, List.append_assoc]⟩, ?_⟩
    exact List.isPrefixOf_iff_prefix.mpr (List.prefix_append _ _)

theorem createModalRow_text (buildingId : String) (d : Device) (row : ModalRow)
    (h : createModalRow buildingId (some d) = some row) :
    ∃ id, d.id = some id ∧
      row.nameText = strOr d.name "" ++ " (ID: " ++ id.toStr ++ ")" ∧
      row.checked = d.is_ignored := by
  unfold createModalRow at h
  simp only at h
  split at h
  · next id name hid hname =>
    cases h
    exact ⟨id, hid, rfl, rfl⟩
  · cases h

/-- C12 (as stated, refuted): the device named "Door" with id 5 stays visible
under the query "id", although its lower-cased name does not contain "id"
(all the text involved is ASCII, where `toLowerCase` is
`String.prototype.toLowerCase`). -/
theorem filter_matches_id_suffix :
    ((modalSearchInput toLowerCase
        (showIgnoreSelectionModal ⟨true⟩ ⟨some "tok", some "admin"⟩ 1 (numberToString 4)
          Modal.initial (jsonOk [some (sampleDevice 5 "Door" false)])).1.modal "id").rows.map
        (fun r => (r.nameText, r.display)) = [("Door (ID: 5)", "flex")]) ∧
    includes (toLowerCase "Door") (toLowerCase "id") = false := by
  decide

/-- C12 (amended): for every list of modal rows and every filter query, after
the filter keystroke a row is visible exactly when the text of its name
element, lower-cased by `String.prototype.toLowerCase`, contains the query
lower-cased the same way; for a rendered row that text is the device's name
followed by " (ID: <id>)". The statement holds whatever function the
lower-casing is. -/
theorem filter_matches_label (lower : String → String) (m : Modal) (query : String) :
    (modalSearchInput lower m query).rows.length = m.rows.length ∧
    (∀ (i : Nat) (r : ModalRow), m.rows[i]? = some r →
      (modalSearchInput lower m query).rows[i]? =
        some { r with display :=
          (if (includes (lower r.nameText) (lower query)) = true then "flex"
           else "none") }) ∧
    (∀ (buildingId : String) (d : Device) (row : ModalRow),
      createModalRow buildingId (some d) = some row →
        ∃ id, d.id = some id ∧
          row.nameText = strOr d.name "" ++ " (ID: " ++ id.toStr ++ ")") := by
  refine ⟨by simp [modalSearchInput_rows], ?_, ?_⟩
  · intro i r hr
    simp [modalSearchInput_rows, List.getElem?_map, hr, rowMatches]
  · intro buildingId d row hrow
    obtain ⟨id, hid, htext, _⟩ := createModalRow_text buildingId d row hrow
    exact ⟨id, hid, htext⟩

theorem modalSearchInput_label (lower : String → String) (m : Modal) (value : String) :
    (modalSearchInput lower m value).selectAllText =
      if ((m.rows.filter (rowMatches lower (lower value))).all (fun r => r.checked) &&
          decide ((m.rows.filter (rowMatches lower (lower value))).length > 0)) = true
      then "Deselect All" else "Select All" := rfl

theorem visible_after_filter (lower : String → String) (m : Modal) (value : String)
    (r : ModalRow) :
    (r ∈ (modalSearchInput lower m value).rows ∧ r.display ≠ "none") ↔
      ∃ r0 ∈ m.rows, rowMatches lower (lower value) r0 = true ∧
        r = { r0 with display := "flex" } := by
  rw [modalSearchInput_rows]
  constructor
  · rintro ⟨hmem, hvis⟩
    obtain ⟨r0, hr0, rfl⟩ := List.mem_map.mp hmem
    by_cases hm : rowMatches lower (lower value) r0 = true
    · exact ⟨r0, hr0, hm, by simp [hm]⟩
    · simp [hm] at hvis
  · rintro ⟨r0, hr0, hm, rfl⟩
    refine ⟨List.mem_map.mpr ⟨r0, hr0, by simp [hm]⟩, ?_⟩
    show "flex" ≠ "none"
    decide

/-- C18: for every list of modal rows with any checkbox states and every
filter query, after the filter keystroke the label of the toggle is
"Deselect All" exactly when at least one row is visible and every visible row
is checked, and "Select All" otherwise. This holds whatever function `lower`
the filter lower-cases with. -/
theorem select_all_label (lower : String → String) (m : Modal) (query : String) :
    ((modalSearchInput lower m query).selectAllText = "Deselect All" ↔
      (∃ r ∈ (modalSearchInput lower m query).rows, r.display ≠ "none") ∧
      (∀ r ∈ (modalSearchInput lower m query).rows, r.display ≠ "none" → r.checked = true)) ∧
    ((modalSearchInput lower m query).selectAllText ≠ "Deselect All" →
      (modalSearchInput lower m query).selectAllText = "Select All") := by
  have hlabel := modalSearchInput_label lower m query
  constructor
  · constructor
    · intro hd
      rw [hlabel] at hd
      by_cases hc : ((m.rows.filter (rowMatches lower (lower query))).all (fun r => r.checked) &&
          decide ((m.rows.filter (rowMatches lower (lower query))).length > 0)) = true
      · rw [Bool.and_eq_true, List.all_eq_true, decide_eq_true_eq] at hc
        obtain ⟨hall, hlen⟩ := hc
        constructor
        · obtain ⟨r0, hr0⟩ := List.exists_mem_of_length_pos hlen
          have hr0' := List.mem_filter.mp hr0
          exact ⟨{ r0 with display := "flex" },
            ((visible_after_filter lower m query _).mpr ⟨r0, hr0'.1, hr0'.2, rfl⟩).1,
            ((visible_after_filter lower m query _).mpr ⟨r0, hr0'.1, hr0'.2, rfl⟩).2⟩
        · intro r hr hvis
          obtain ⟨r0, hr0, hm, rfl⟩ := (visible_after_filter lower m query r).mp ⟨hr, hvis⟩
          exact hall r0 (List.mem_filter.mpr ⟨hr0, hm⟩)
      · rw [if_neg hc] at hd
        exact absurd hd (by decide)
    · rintro ⟨⟨r, hr, hvis⟩, hall⟩
      rw [hlabel]
      obtain ⟨r0, hr0, hm, rfl⟩ := (visible_after_filter lower m query r).mp ⟨hr, hvis⟩
      have hc : ((m.rows.filter (rowMatches lower (lower query))).all (fun r => r.checked) &&
          decide ((m.rows.filter (rowMatches lower (lower query))).length > 0)) = true := by
        rw [Bool.and_eq_true, List.all_eq_true, decide_eq_true_eq]
        constructor
        · intro x hx
          have hx' := List.mem_filter.mp hx
          have hxv := (visible_after_filter lower m query { x with display := "flex" }).mpr
            ⟨x, hx'.1, hx'.2, rfl⟩
          exact hall { x with display := "flex" } hxv.1 hxv.2
        · exact List.length_pos_of_mem (List.mem_filter.mpr ⟨hr0, hm⟩)
      rw [if_pos hc]
  · intro hne
    rw [hlabel] at hne ⊢
    split
    · next hc => rw [if_pos hc] at hne; exact absurd rfl hne
    · rfl

/-! ### Outcomes of `apiRequest` -/

theorem apiRequest_notifications {α : Type} (els : Elements) (auth : Session)
    (endpoint : String) (options : Options) (outcome : FetchOutcome α)
    (hu : isUnauthorized outcome = false) :
    (apiRequest els auth endpoint options outcome).effects.filter Effect.isNotification =
      match (apiTry outcome).2 with
      | .error m => [.showNotification (strOr (some m) "An unexpected error occurred") true]
      | .ok _ => [] := by
  have h1 := apiTry_no_timer outcome hu
  unfold apiRequest
  simp only [h1]
  cases els.loader <;> cases (apiTry outcome).2 <;> simp [List.filter, Effect.isNotification]

theorem strOr_nonempty (m fallback : String) (h : m ≠ "") : strOr (some m) fallback = m := by
  simp [strOr, h]

theorem apiTry_failure {α : Type} (r : Response α) (hfail : r.ok = false)
    (h401 : r.status ≠ 401) :
    (apiTry (.response r)).2 =
      .error (match r.json with
        | .error _ => "Request failed with status " ++ toString r.status
        | .ok .null => "Cannot read properties of null (reading 'detail')"
        | .ok (.value detail _) => strOr detail ("Request failed: " ++ toString r.status)) := by
  unfold apiTry
  simp only [h401, if_false, hfail, Bool.not_false, if_true]
  split <;> rfl

theorem request_failed_nonempty (n : Nat) : "Request failed with status " ++ toString n ≠ "" := by
  intro h
  have hd := congrArg String.data h
  rw [String.data_append] at hd
  have hl := congrArg List.length hd
  simp at hl

/-- C14: for every response whose status N is neither a success status nor
401: when the body parses as JSON with a non-empty `detail`, the error message
is that detail; when the body does not parse as JSON, it is
"Request failed with status N". In both cases `apiRequest` calls
`showNotification` exactly once, with that message as an error, and rejects
with that message. -/
theorem apiRequest_error_message {α : Type} (els : Elements) (auth : Session)
    (endpoint : String) (options : Options) (r : Response α)
    (hfail : r.ok = false) (h401 : r.status ≠ 401) :
    (∀ (d : String) (p : α), r.json = .ok (.value (some d) p) → d ≠ "" →
      (apiRequest els auth endpoint options (.response r)).result = .error d ∧
      (apiRequest els auth endpoint options (.response r)).effects.filter
        Effect.isNotification = [.showNotification d true]) ∧
    (∀ e : String, r.json = .error e →
      (apiRequest els auth endpoint options (.response r)).result =
        .error ("Request failed with status " ++ toString r.status) ∧
      (apiRequest els auth endpoint options (.response r)).effects.filter
        Effect.isNotification =
          [.showNotification ("Request failed with status " ++ toString r.status) true]) := by
  have hu : isUnauthorized (.response r) = false := by simp [isUnauthorized, h401]
  have hnote := apiRequest_notifications els auth endpoint options (.response r) hu
  have htry := apiTry_failure r hfail h401
  constructor
  · intro d p hjson hne
    rw [hjson] at htry
    have hmsg : strOr (some d) ("Request failed: " ++ toString r.status) = d :=
      strOr_nonempty d _ hne
    simp only [hmsg] at htry
    refine ⟨by rw [apiRequest_result, htry], ?_⟩
    rw [hnote, htry]
    simp only [strOr_nonempty d _ hne]
  · intro e hjson
    rw [hjson] at htry
    simp only at htry
    refine ⟨by rw [apiRequest_result, htry], ?_⟩
    rw [hnote, htry]
    simp only [strOr_nonempty _ _ (request_failed_nonempty r.status)]

/-- C14, at a concrete input: status 404 with a JSON body whose `detail` is
"Building not found". -/
theorem apiRequest_error_message_witness :
    (apiRequest ⟨true⟩ ⟨some "tok", some "admin"⟩ "buildings/9/time" Options.empty
      (.response ({ status := 404, contentType := some "application/json"
                    json := .ok (.value (some "Building not found") ()) } :
        Response Unit))).effects.filter Effect.isNotification =
      [.showNotification "Building not found" true] :=
  ((apiRequest_error_message ⟨true⟩ ⟨some "tok", some "admin"⟩ "buildings/9/time"
    Options.empty
    ({ status := 404, contentType := some "application/json"
       json := .ok (.value (some "Building not found") ()) } : Response Unit)
    rfl (by decide)).1 "Building not found" () rfl (by decide)).2

theorem apiTry_success {α : Type} (r : Response α) (hok : r.ok = true) :
    apiTry (.response r) =
      ([], match r.contentType with
        | some ct =>
          if (decide (ct ≠ "") && includes ct "application/json") = true then
            (match r.json with
             | .error m => .error m
             | .ok j => .ok (.parsed j))
          else .ok .emptyObject
        | none => .ok .emptyObject) := by
  have h401 : ¬ r.status = 401 := by
    intro h
    simp [Response.ok, h] at hok
  unfold apiTry
  simp only [h401, if_false, hok, Bool.not_true, Bool.false_eq_true]
  repeat' split
  all_goals simp_all

/-- C15 (as stated, refuted): a response with status 200 and content type
`application/json` whose body does not parse makes `apiRequest` show an error
notification and reject, instead of returning a parsed body in silence. -/
theorem apiRequest_success_unparsable :
    (apiRequest ⟨true⟩ ⟨some "tok", some "admin"⟩ "buildings" Options.empty
      (.response ({ status := 200, contentType := some "application/json"
                    json := .error "Unexpected end of JSON input" } :
        Response Unit))).effects.filter Effect.isNotification =
      [.showNotification "Unexpected end of JSON input" true] ∧
    (apiRequest ⟨true⟩ ⟨some "tok", some "admin"⟩ "buildings" Options.empty
      (.response ({ status := 200, contentType := some "application/json"
                    json := .error "Unexpected end of JSON input" } :
        Response Unit))).result = .error "Unexpected end of JSON input" := by
  constructor
  · decide
  · rfl

/-- C15 (amended): for every success response, `apiRequest` returns the parsed
JSON body when the content-type header is present, contains
"application/json" and the body parses as JSON, and returns an empty object
when the header is absent or does not contain it; in neither case is a
notification shown. When the header announces JSON and the body does not
parse, the call fails with the parse error, shown once as an error
notification. -/
theorem apiRequest_success {α : Type} (els : Elements) (auth : Session)
    (endpoint : String) (options : Options) (r : Response α) (hok : r.ok = true) :
    (∀ (ct : String) (j : Json α), r.contentType = some ct →
      includes ct "application/json" = true → r.json = .ok j →
        (apiRequest els auth endpoint options (.response r)).result = .ok (.parsed j) ∧
        (apiRequest els auth endpoint options (.response r)).effects.filter
          Effect.isNotification = []) ∧
    ((r.contentType = none ∨
        ∃ ct, r.contentType = some ct ∧ includes ct "application/json" = false) →
      (apiRequest els auth endpoint options (.response r)).result = .ok .emptyObject ∧
      (apiRequest els auth endpoint options (.response r)).effects.filter
        Effect.isNotification = []) ∧
    (∀ (ct e : String), r.contentType = some ct →
      includes ct "application/json" = true → r.json = .error e →
        (apiRequest els auth endpoint options (.response r)).result = .error e ∧
        (apiRequest els auth endpoint options (.response r)).effects.filter
          Effect.isNotification =
            [.showNotification (strOr (some e) "An unexpected error occurred") true]) := by
  have hu : isUnauthorized (.response r) = false := by
    have h401 : ¬ r.status = 401 := by
      intro h
      simp [Response.ok, h] at hok
    simp [isUnauthorized, h401]
  have hnote := apiRequest_notifications els auth endpoint options (.response r) hu
  have htry := apiTry_success r hok
  have hne : ∀ ct : String, includes ct "application/json" = true → ct ≠ "" := by
    intro ct hinc hct
    subst hct
    exact absurd hinc (by decide)
  refine ⟨?_, ?_, ?_⟩
  · intro ct j hct hinc hjson
    have h2 : (apiTry (.response r)).2 = .ok (.parsed j) := by
      rw [htry, hct]
      simp [hinc, hne ct hinc, hjson]
    exact ⟨by rw [apiRequest_result, h2], by rw [hnote, h2]⟩
  · intro h
    have h2 : (apiTry (.response r)).2 = .ok .emptyObject := by
      rw [htry]
      rcases h with h | ⟨ct, hct, hinc⟩
      · rw [h]
      · rw [hct]
        simp [hinc]
    exact ⟨by rw [apiRequest_result, h2], by rw [hnote, h2]⟩
  · intro ct e hct hinc hjson
    have h2 : (apiTry (.response r)).2 = .error e := by
      rw [htry, hct]
      simp [hinc, hne ct hinc, hjson]
    exact ⟨by rw [apiRequest_result, h2], by rw [hnote, h2]⟩

/-- C15 (amended), at a concrete input: status 204 without a content type. -/
theorem apiRequest_success_witness :
    (apiRequest ⟨true⟩ ⟨some "tok", some "admin"⟩ "buildings/9/reevaluate" reevaluateOptions
      (.response ({ status := 204, contentType := none, json := .error "" } :
        Response Unit))).result = .ok .emptyObject :=
  ((apiRequest_success ⟨true⟩ ⟨some "tok", some "admin"⟩ "buildings/9/reevaluate"
    reevaluateOptions ({ status := 204, contentType := none, json := .error "" } :
      Response Unit) rfl).2.1 (Or.inl rfl)).1

/-! ### Start-time save -/

theorem readNumber_digits (ds : List Char) (hdig : ∀ c ∈ ds, c.isDigit = true) :
    readNumber ds = (ds, digitsValue ds) := by
  have htw := takeWhile_isDigit ds hdig
  unfold readNumber
  split
  · next r =>
    have hx := hdig 'x' (by simp)
    exact absurd hx (by decide)
  · next r =>
    have hx := hdig 'X' (by simp)
    exact absurd hx (by decide)
  · rw [htw]

theorem parseIntNoRadix_numberToString (n : Int) (h : n.natAbs < 10 ^ 21) :
    parseIntNoRadix (numberToString n) = some n := by
  rw [numberToString_small n h]
  unfold parseIntNoRadix
  cases n with
  | ofNat k =>
    obtain ⟨hne, hdig, hval⟩ := toDigits_spec k
    simp only
    cases hds : Nat.toDigits 10 k with
    | nil => exact absurd hds hne
    | cons c tl =>
      rw [hds] at hdig hval
      obtain ⟨hsp, hminus, hplus⟩ := isDigit_not_space c (hdig c (by simp))
      have hdrop : (c :: tl).dropWhile isJsWhiteSpace = c :: tl := by
        simp [List.dropWhile_cons, hsp]
      rw [hdrop, splitSign_digit c tl hminus hplus]
      simp only [readNumber_digits (c :: tl) hdig, hval]
      rfl
  | negSucc k =>
    obtain ⟨hne, hdig, hval⟩ := toDigits_spec (k + 1)
    simp only
    have hm : isJsWhiteSpace '-' = false := by decide
    have hdrop : ('-' :: Nat.toDigits 10 (k + 1)).dropWhile isJsWhiteSpace =
        '-' :: Nat.toDigits 10 (k + 1) := by
      simp [List.dropWhile_cons, hm]
    have hs : splitSign ('-' :: Nat.toDigits 10 (k + 1)) = (true, Nat.toDigits 10 (k + 1)) := rfl
    rw [hdrop, hs]
    simp only [readNumber_digits _ hdig, hval]
    cases hds : Nat.toDigits 10 (k + 1) with
    | nil => exact absurd hds hne
    | cons c tl => rfl

theorem updateFirst_of_nodup (bs : List Building) (id : Int) (value : String)
    (hnodup : (bs.map (fun b => b.id)).Nodup) :
    (match findIndex (fun b => decide (some b.id = some id)) bs with
      | some index => assignStartTime bs index value
      | none => bs) =
      bs.map (fun b => if b.id = id then { b with start_time := some value } else b) := by
  induction bs with
  | nil => rfl
  | cons b rest ih =>
    have hn : b.id ∉ rest.map (fun b => b.id) ∧ (rest.map (fun b => b.id)).Nodup := by
      simpa [List.nodup_cons] using hnodup
    by_cases hb : b.id = id
    · have hrest : rest.map (fun x => if x.id = id then { x with start_time := some value } else x)
          = rest := by
        conv_rhs => rw [← List.map_id rest]
        apply List.map_congr_left
        intro x hx
        have hx2 : x.id ≠ id := fun h => hn.1 (List.mem_map.mpr ⟨x, hx, h.trans hb.symm⟩)
        simp [hx2]
      simp only [findIndex, hb, decide_True, if_true, assignStartTime, List.map_cons, hrest]
    · have ih2 := ih hn.2
      have hb2 : ¬ some b.id = some id := fun h => hb (Option.some.inj h)
      simp only [findIndex, hb2, decide_False, Bool.false_eq_true, if_false, List.map_cons, hb]
      cases hf : findIndex (fun b => decide (some b.id = some id)) rest with
      | none =>
        rw [hf] at ih2
        simp only [Option.map_none']
        rw [← ih2]
      | some index =>
        rw [hf] at ih2
        simp only [Option.map_some', assignStartTime]
        rw [← ih2]

theorem timeSaveClick_success (els : Elements) (auth : Session) (bs : List Building)
    (card : Card) (outcome : FetchOutcome Unit) (hvalue : card.startTimeValue ≠ "")
    (hok : succeeds outcome = true) :
    (timeSaveClick els auth bs card outcome).allBuildings =
      (match findIndex (fun b => decide (some b.id = parseIntNoRadix card.buildingId)) bs with
       | some index => assignStartTime bs index card.startTimeValue
       | none => bs) ∧
    (timeSaveClick els auth bs card outcome).requests =
      [apiFetchArgs auth (timeEndpoint card.buildingId)
        (timeOptions card.buildingId card.startTimeValue)] := by
  unfold succeeds at hok
  unfold timeSaveClick
  simp only [hvalue, if_false, apiRequest_result, apiRequest_request]
  cases hres : (apiTry outcome).2 with
  | error e => rw [hres] at hok; simp at hok
  | ok v => exact ⟨rfl, rfl⟩

theorem timeSaveClick_failure (els : Elements) (auth : Session) (bs : List Building)
    (card : Card) (outcome : FetchOutcome Unit) (hvalue : card.startTimeValue ≠ "")
    (hfail : succeeds outcome = false) :
    (timeSaveClick els auth bs card outcome).allBuildings = bs ∧
    (timeSaveClick els auth bs card outcome).requests =
      [apiFetchArgs auth (timeEndpoint card.buildingId)
        (timeOptions card.buildingId card.startTimeValue)] := by
  unfold succeeds at hfail
  unfold timeSaveClick
  simp only [hvalue, if_false, apiRequest_result, apiRequest_request]
  cases hres : (apiTry outcome).2 with
  | error e => exact ⟨rfl, rfl⟩
  | ok v => rw [hres] at hfail; simp at hfail

/-- C16 (as stated, refuted): the card of the building whose id is the integer
10^21 carries `dataset.buildingId` "1e+21", which `parseInt` reads as 1: a
successful save of "21:30" from that card sets `start_time` on the cached
building 1 and leaves the card's own building as it was. -/
theorem timeSave_updates_other_building :
    (createBuildingCard ⟨10 ^ 21, "Plant", none⟩).buildingId = "1e+21" ∧
    (timeSaveClick ⟨true⟩ ⟨some "tok", some "admin"⟩
        [⟨1, "Depot", none⟩, ⟨10 ^ 21, "Plant", none⟩]
        { createBuildingCard ⟨10 ^ 21, "Plant", none⟩ with startTimeValue := "21:30" }
        (jsonOk ())).allBuildings =
      [⟨1, "Depot", some "21:30"⟩, ⟨10 ^ 21, "Plant", none⟩] := by
  decide

/-- C16 (amended): for the start-time save of the card of building `id`, with
the cached `allBuildings` holding each id at most once: with a non-empty time
value one request is sent; when it succeeds and `id` has magnitude below
10^21, the cached entry with that id gets `start_time` set to the submitted
value and every other entry and field is unchanged; when it fails,
`allBuildings` is unchanged. With an empty value no request is sent and
`allBuildings` is unchanged. -/
theorem timeSave_updates_cache (els : Elements) (auth : Session) (bs : List Building)
    (card : Card) (id : Int) (outcome : FetchOutcome Unit)
    (hcard : card.buildingId = numberToString id)
    (hnodup : (bs.map (fun b => b.id)).Nodup) :
    (id.natAbs < 10 ^ 21 → card.startTimeValue ≠ "" → succeeds outcome = true →
      (timeSaveClick els auth bs card outcome).allBuildings =
        bs.map (fun b =>
          if b.id = id then { b with start_time := some card.startTimeValue } else b) ∧
      (timeSaveClick els auth bs card outcome).requests.length = 1) ∧
    (card.startTimeValue ≠ "" → succeeds outcome = false →
      (timeSaveClick els auth bs card outcome).allBuildings = bs ∧
      (timeSaveClick els auth bs card outcome).requests.length = 1) ∧
    (card.startTimeValue = "" →
      (timeSaveClick els auth bs card outcome).allBuildings = bs ∧
      (timeSaveClick els auth bs card outcome).requests = []) := by
  refine ⟨fun hbound hvalue hok => ?_, fun hvalue hfail => ?_, fun hempty => ?_⟩
  · obtain ⟨hall, hreq⟩ := timeSaveClick_success els auth bs card outcome hvalue hok
    rw [hall, hreq, hcard, parseIntNoRadix_numberToString id hbound]
    exact ⟨updateFirst_of_nodup bs id card.startTimeValue hnodup, rfl⟩
  · obtain ⟨hall, hreq⟩ := timeSaveClick_failure els auth bs card outcome hvalue hfail
    rw [hall, hreq]
    exact ⟨rfl, rfl⟩
  · unfold timeSaveClick
    simp only [hempty, if_true]
    exact ⟨trivial, trivial⟩

/-- C16 (amended), at a concrete input: buildings 3 and 4 cached, the card of
building 4 saves "21:30" and the request succeeds. -/
theorem timeSave_updates_cache_witness :
    (timeSaveClick ⟨true⟩ ⟨some "tok", some "admin"⟩
        [⟨3, "Depot", some "20:00"⟩, ⟨4, "Plant", none⟩]
        { createBuildingCard ⟨4, "Plant", none⟩ with startTimeValue := "21:30" }
        (jsonOk ())).allBuildings =
      [⟨3, "Depot", some "20:00"⟩, ⟨4, "Plant", some "21:30"⟩] :=
  ((timeSave_updates_cache ⟨true⟩ ⟨some "tok", some "admin"⟩
    [⟨3, "Depot", some "20:00"⟩, ⟨4, "Plant", none⟩]
    { createBuildingCard ⟨4, "Plant", none⟩ with startTimeValue := "21:30" } 4
    (jsonOk ()) rfl (by decide)).1 (by decide) (by decide) rfl).1

/-! ### Notification surface -/

theorem showNotification_consistent (n : Notification) (text : String) (isError : Option Bool)
    (timeout : Option Nat) (h : n.consistent) :
    ∃ n', showNotification (some n) text isError timeout = some n' ∧
      n'.showing n.nextHandle (timeout.getD 3000) ∧
      n'.textContent = text ∧
      n'.backgroundColor = (if isError.getD false then "#ef4444" else "#22c55e") ∧
      n'.nextHandle = n.nextHandle + 1 := by
  obtain ⟨hnext, hstate⟩ := h
  have hcleared : (match n.timeoutId with
      | some handle => if handle ≠ 0 then clearTimeout n.pending handle else n.pending
      | none => n.pending) = [] := by
    rcases hstate with ⟨hp, ht, _⟩ | ⟨handle, delay, hp, ht, _, h0⟩
    · rw [ht, hp]
    · rw [ht, hp]
      simp [h0, clearTimeout]
  refine ⟨_, rfl, ⟨?_, rfl, rfl, hnext⟩, rfl, rfl, rfl⟩
  simp only [hcleared, List.nil_append]

theorem fireTimer_idle (n : Notification) (handle : Nat) (h : n.idle) :
    fireTimer (some n) handle = some n := by
  unfold fireTimer
  simp [h.1]

theorem fireTimer_showing (n : Notification) (handle delay fired : Nat)
    (h : n.showing handle delay) :
    ∃ n', fireTimer (some n) fired = some n' ∧
      n'.textContent = n.textContent ∧ n'.backgroundColor = n.backgroundColor ∧
      n'.nextHandle = n.nextHandle ∧
      (if fired = handle then n'.idle else n' = n) := by
  obtain ⟨hp, ht, hs, h0⟩ := h
  unfold fireTimer
  by_cases hf : fired = handle
  · subst hf
    refine ⟨{ n with shown := false, timeoutId := none, pending := [] }, ?_, rfl, rfl, rfl, ?_⟩
    · simp [hp]
    · rw [if_pos rfl]
      exact ⟨rfl, rfl, rfl⟩
  · have hf2 : ¬ handle = fired := fun h => hf h.symm
    refine ⟨n, by simp [hp, hf2], rfl, rfl, rfl, ?_⟩
    rw [if_neg hf]

theorem notificationRun_consistent (events : List NotificationEvent) (n : Notification)
    (h : n.consistent) :
    ∃ n', notificationRun (some n) events = some n' ∧ n'.consistent := by
  induction events generalizing n with
  | nil => exact ⟨n, rfl, h⟩
  | cons e rest ih =>
    cases e with
    | call text isError timeout =>
      obtain ⟨n1, hstep, hshow, _, _, hnext⟩ :=
        showNotification_consistent n text isError timeout h
      have hc : n1.consistent := ⟨by rw [hnext]; omega, Or.inr ⟨_, _, hshow⟩⟩
      obtain ⟨n2, hrun, hc2⟩ := ih n1 hc
      exact ⟨n2, by simpa [notificationRun, notificationStep, hstep] using hrun, hc2⟩
    | fire fired =>
      obtain ⟨hnext, hstate⟩ := h
      rcases hstate with hidle | ⟨handle, delay, hshow⟩
      · have hstep := fireTimer_idle n fired hidle
        obtain ⟨n2, hrun, hc2⟩ := ih n ⟨hnext, Or.inl hidle⟩
        exact ⟨n2, by simpa [notificationRun, notificationStep, hstep] using hrun, hc2⟩
      · obtain ⟨n1, hstep, _, _, hnx, hcase⟩ := fireTimer_showing n handle delay fired hshow
        have hc : n1.consistent := by
          refine ⟨by rw [hnx]; exact hnext, ?_⟩
          by_cases hf : fired = handle
          · rw [if_pos hf] at hcase
            exact Or.inl hcase
          · rw [if_neg hf] at hcase
            rw [hcase]
            exact Or.inr ⟨handle, delay, hshow⟩
        obtain ⟨n2, hrun, hc2⟩ := ih n1 hc
        exact ⟨n2, by simpa [notificationRun, notificationStep, hstep] using hrun, hc2⟩

theorem notificationRun_fires (fires : List Nat) (n : Notification) (handle delay : Nat)
    (h : n.showing handle delay) :
    ∃ n', notificationRun (some n) (fires.map NotificationEvent.fire) = some n' ∧
      n'.textContent = n.textContent ∧ n'.backgroundColor = n.backgroundColor ∧
      (if handle ∈ fires then n'.idle else n'.showing handle delay) := by
  induction fires generalizing n with
  | nil => exact ⟨n, rfl, rfl, rfl, by simpa using h⟩
  | cons fired rest ih =>
    obtain ⟨n1, hstep, htext, hcolor, _, hcase⟩ := fireTimer_showing n handle delay fired h
    by_cases hf : fired = handle
    · rw [if_pos hf] at hcase
      have hrest : ∀ fs : List Nat,
          notificationRun (some n1) (fs.map NotificationEvent.fire) = some n1 := by
        intro fs
        induction fs with
        | nil => rfl
        | cons f fs ihf =>
          simpa [notificationRun, notificationStep, fireTimer_idle n1 f hcase] using ihf
      refine ⟨n1, ?_, htext, hcolor, ?_⟩
      · simpa [notificationRun, notificationStep, hstep] using hrest rest
      · rw [if_pos (by simp [hf])]
        exact hcase
    · rw [if_neg hf] at hcase
      subst hcase
      obtain ⟨n2, hrun, htext2, hcolor2, hcase2⟩ := ih n1 h
      refine ⟨n2, ?_, htext2, hcolor2, ?_⟩
      · simpa [notificationRun, notificationStep, hstep] using hrun
      · have hf2 : ¬ handle = fired := fun h => hf h.symm
        simpa [List.mem_cons, hf2] using hcase2

theorem initial_consistent : Notification.initial.consistent :=
  ⟨by decide, Or.inl ⟨rfl, rfl, rfl⟩⟩

theorem consistent_pending (n : Notification) (h : n.consistent) : n.pending.length ≤ 1 := by
  rcases h.2 with ⟨hp, _, _⟩ | ⟨handle, delay, hp, _, _, _⟩
  · rw [hp]; simp
  · rw [hp]; simp

/-- C17: after any sequence of `showNotification` calls and timer firings on
a page that has the notification element, at most one auto-hide timer is
pending. When the sequence ends with a call followed only by timer firings,
the text and the colour shown are those of that call; the previous timer has
been cleared, the only pending timer is the one this call set, with its
timeout (3000 ms when the argument is left out); the notification is visible
until that timer fires and hidden once it has. -/
theorem notification_single_timer (before : List NotificationEvent) (text : String)
    (isError : Option Bool) (timeout : Option Nat) (fires : List Nat) :
    (∀ events, ∃ n, notificationRun (some Notification.initial) events = some n ∧
      n.pending.length ≤ 1) ∧
    ∃ n0 n, notificationRun (some Notification.initial) before = some n0 ∧
      notificationRun (some Notification.initial)
        (before ++ [.call text isError timeout] ++ fires.map NotificationEvent.fire) = some n ∧
      n.textContent = text ∧
      n.backgroundColor = (if isError.getD false then "#ef4444" else "#22c55e") ∧
      (if n0.nextHandle ∈ fires then n.shown = false ∧ n.pending = [] ∧ n.timeoutId = none
       else n.shown = true ∧ n.pending = [(n0.nextHandle, timeout.getD 3000)] ∧
         n.timeoutId = some n0.nextHandle) := by
  constructor
  · intro events
    obtain ⟨n, hrun, hc⟩ := notificationRun_consistent events _ initial_consistent
    exact ⟨n, hrun, consistent_pending n hc⟩
  · obtain ⟨n0, hrun0, hc0⟩ := notificationRun_consistent before _ initial_consistent
    obtain ⟨n1, hstep, hshow, htext, hcolor, _⟩ :=
      showNotification_consistent n0 text isError timeout hc0
    obtain ⟨n, hrun, htext2, hcolor2, hcase⟩ :=
      notificationRun_fires fires n1 n0.nextHandle (timeout.getD 3000) hshow
    refine ⟨n0, n, hrun0, ?_, by rw [htext2, htext], by rw [hcolor2, hcolor], ?_⟩
    · unfold notificationRun at hrun0 hrun ⊢
      rw [List.foldl_append, List.foldl_append, hrun0]
      simpa [notificationStep, hstep] using hrun
    · by_cases hf : n0.nextHandle ∈ fires
      · rw [if_pos hf] at hcase ⊢
        exact ⟨hcase.2.2, hcase.1, hcase.2.1⟩
      · rw [if_neg hf] at hcase ⊢
        exact ⟨hcase.2.2.1, hcase.1, hcase.2.1⟩

/-! ### Handler bookkeeping of the modal -/

theorem removeCurrent_toList (current : Option Invocation) :
    removeCurrent current.toList current = [] := by
  cases current with
  | none => rfl
  | some h => simp [removeCurrent, Option.toList]

theorem addListener_nil (inv : Invocation) : addListener (addListener [] inv) inv = [inv] := by
  simp [addListener]

theorem addListener_single (inv : Invocation) : addListener [] inv = [inv] := by
  simp [addListener]

theorem closeModal_tracked (m : Modal) (h : m.tracked) :
    (closeModal m).confirmListeners = [] ∧ (closeModal m).cancelListeners = [] ∧
    (closeModal m).closeListeners = [] ∧ (closeModal m).confirmCurrent = none ∧
    (closeModal m).cancelCurrent = none ∧ (closeModal m).closeCurrent = none ∧
    (closeModal m).searchHandler = none ∧ (closeModal m).selectAllHandler = none := by
  obtain ⟨h1, h2, h3⟩ := h
  unfold closeModal
  simp only [h1, h2, h3, removeCurrent_toList]
  exact ⟨trivial, trivial, trivial, trivial, trivial, trivial, trivial, trivial⟩

theorem closeModal_keeps_tracked (m : Modal) (h : m.tracked) : (closeModal m).tracked := by
  obtain ⟨h1, h2, h3, h4, h5, h6, _, _⟩ := closeModal_tracked m h
  exact ⟨by rw [h1, h4]; rfl, by rw [h2, h5]; rfl, by rw [h3, h6]; rfl⟩

theorem showModal_tracked (els : Elements) (auth : Session) (k : Nat) (buildingId : String)
    (m : Modal) (devices : FetchOutcome (List (Option Device))) (h : m.tracked) :
    (showIgnoreSelectionModal els auth k buildingId m devices).1.modal.confirmListeners =
      [(showIgnoreSelectionModal els auth k buildingId m devices).2] ∧
    (showIgnoreSelectionModal els auth k buildingId m devices).1.modal.cancelListeners =
      [(showIgnoreSelectionModal els auth k buildingId m devices).2] ∧
    (showIgnoreSelectionModal els auth k buildingId m devices).1.modal.closeListeners =
      [(showIgnoreSelectionModal els auth k buildingId m devices).2] ∧
    (showIgnoreSelectionModal els auth k buildingId m devices).1.modal.confirmCurrent =
      some (showIgnoreSelectionModal els auth k buildingId m devices).2 ∧
    (showIgnoreSelectionModal els auth k buildingId m devices).1.modal.cancelCurrent =
      some (showIgnoreSelectionModal els auth k buildingId m devices).2 ∧
    (showIgnoreSelectionModal els auth k buildingId m devices).1.modal.closeCurrent =
      some (showIgnoreSelectionModal els auth k buildingId m devices).2 := by
  obtain ⟨h1, h2, h3⟩ := h
  unfold showIgnoreSelectionModal
  simp only [h1, h2, h3, removeCurrent_toList]
  repeat' split
  all_goals simp [addListener]

theorem confirmHandler_modal_cases (els : Elements) (auth : Session) (inv : Invocation)
    (m : Modal) (card : Option Card) (bulk reevaluate : FetchOutcome Unit)
    (refresh : FetchOutcome (List (Option Device))) :
    (confirmHandler els auth inv m card bulk reevaluate refresh).modal = closeModal m ∨
    (confirmHandler els auth inv m card bulk reevaluate refresh).modal =
      { m with confirmDisabled := false, cancelDisabled := false } := by
  unfold confirmHandler
  simp only [apiRequest_result]
  repeat' split
  all_goals first
    | (left; rfl)
    | (right; rfl)

theorem confirmHandler_keeps_tracked (els : Elements) (auth : Session) (inv : Invocation)
    (m : Modal) (card : Option Card) (bulk reevaluate : FetchOutcome Unit)
    (refresh : FetchOutcome (List (Option Device))) (h : m.tracked) :
    (confirmHandler els auth inv m card bulk reevaluate refresh).modal.tracked := by
  rcases confirmHandler_modal_cases els auth inv m card bulk reevaluate refresh with hc | hc
  · rw [hc]; exact closeModal_keeps_tracked m h
  · rw [hc]; exact h

theorem clickCancel_keeps_tracked (m : Modal) (h : m.tracked) : (clickCancel m).tracked := by
  unfold clickCancel
  rw [h.2.1]
  cases m.cancelCurrent with
  | none => exact h
  | some inv => exact closeModal_keeps_tracked m h

theorem clickClose_keeps_tracked (m : Modal) (h : m.tracked) : (clickClose m).tracked := by
  unfold clickClose
  rw [h.2.2]
  cases m.closeCurrent with
  | none => exact h
  | some inv => exact closeModal_keeps_tracked m h

theorem clickConfirm_keeps_tracked (els : Elements) (auth : Session) (m : Modal)
    (card : Option Card) (bulk reevaluate : FetchOutcome Unit)
    (refresh : FetchOutcome (List (Option Device))) (h : m.tracked) :
    (clickConfirm els auth m card bulk reevaluate refresh).tracked := by
  unfold clickConfirm
  split
  · exact h
  · rw [h.1]
    cases m.confirmCurrent with
    | none => exact h
    | some inv => exact confirmHandler_keeps_tracked els auth inv m card bulk reevaluate refresh h

theorem showModal_keeps_tracked (els : Elements) (auth : Session) (k : Nat)
    (buildingId : String) (m : Modal) (devices : FetchOutcome (List (Option Device)))
    (h : m.tracked) :
    (showIgnoreSelectionModal els auth k buildingId m devices).1.modal.tracked := by
  obtain ⟨h1, h2, h3, h4, h5, h6⟩ := showModal_tracked els auth k buildingId m devices h
  exact ⟨by rw [h1, h4]; rfl, by rw [h2, h5]; rfl, by rw [h3, h6]; rfl⟩

theorem modalStep_keeps_tracked (els : Elements) (auth : Session) (p : ModalPage)
    (e : ModalEvent) (h : p.modal.tracked) : (modalStep els auth p e).modal.tracked := by
  cases e with
  | opened buildingId devices => exact showModal_keeps_tracked els auth _ buildingId p.modal devices h
  | cancel => exact clickCancel_keeps_tracked p.modal h
  | close => exact clickClose_keeps_tracked p.modal h
  | confirm card bulk reevaluate refresh =>
    exact clickConfirm_keeps_tracked els auth p.modal card bulk reevaluate refresh h

theorem foldl_keeps_tracked (els : Elements) (auth : Session) (events : List ModalEvent)
    (p : ModalPage) (h : p.modal.tracked) :
    (events.foldl (modalStep els auth) p).modal.tracked := by
  induction events generalizing p with
  | nil => exact h
  | cons e rest ih => exact ih _ (modalStep_keeps_tracked els auth p e h)

theorem modalRun_tracked (els : Elements) (auth : Session) (events : List ModalEvent) :
    (modalRun els auth events).modal.tracked :=
  foldl_keeps_tracked els auth events _ ⟨rfl, rfl, rfl⟩

theorem toList_length_le_one (current : Option Invocation) : current.toList.length ≤ 1 := by
  cases current <;> simp [Option.toList]

/-- C19: after any sequence of modal opens, cancel clicks, close clicks and
confirm clicks run one after another, each of the confirm, cancel and close
buttons has at most one click listener; opening the modal from such a state
leaves on each button exactly one listener, the handler of that call, so one
confirm click runs one submission; and `closeModal` leaves no listener on any
of the three buttons, no stored handler, and the search and select-all
handlers cleared. -/
theorem modal_handlers_single (els : Elements) (auth : Session) (events : List ModalEvent) :
    (modalRun els auth events).modal.confirmListeners.length ≤ 1 ∧
    (modalRun els auth events).modal.cancelListeners.length ≤ 1 ∧
    (modalRun els auth events).modal.closeListeners.length ≤ 1 ∧
    (∀ (buildingId : String) (devices : FetchOutcome (List (Option Device))),
      (modalRun els auth (events ++ [.opened buildingId devices])).modal.confirmListeners =
        [(showIgnoreSelectionModal els auth ((modalRun els auth events).calls + 1) buildingId
          (modalRun els auth events).modal devices).2] ∧
      (modalRun els auth (events ++ [.opened buildingId devices])).modal.cancelListeners.length
        = 1 ∧
      (modalRun els auth (events ++ [.opened buildingId devices])).modal.closeListeners.length
        = 1) ∧
    ((closeModal (modalRun els auth events).modal).confirmListeners = [] ∧
      (closeModal (modalRun els auth events).modal).cancelListeners = [] ∧
      (closeModal (modalRun els auth events).modal).closeListeners = [] ∧
      (closeModal (modalRun els auth events).modal).confirmCurrent = none ∧
      (closeModal (modalRun els auth events).modal).cancelCurrent = none ∧
      (closeModal (modalRun els auth events).modal).closeCurrent = none ∧
      (closeModal (modalRun els auth events).modal).searchHandler = none ∧
      (closeModal (modalRun els auth events).modal).selectAllHandler = none) ∧
    (∀ (buildingId : String) (devices : FetchOutcome (List (Option Device))),
      (modalRun els auth (events ++ [.opened buildingId devices, .cancel])).modal =
        closeModal (modalRun els auth (events ++ [.opened buildingId devices])).modal ∧
      (modalRun els auth (events ++ [.opened buildingId devices, .close])).modal =
        closeModal (modalRun els auth (events ++ [.opened buildingId devices])).modal) := by
  have ht := modalRun_tracked els auth events
  have hopen : ∀ (buildingId : String) (devices : FetchOutcome (List (Option Device))),
      (modalRun els auth (events ++ [.opened buildingId devices])).modal =
        (showIgnoreSelectionModal els auth ((modalRun els auth events).calls + 1) buildingId
          (modalRun els auth events).modal devices).1.modal := by
    intro buildingId devices
    unfold modalRun
    rw [List.foldl_append]
    rfl
  refine ⟨?_, ?_, ?_, ?_, closeModal_tracked _ ht, ?_⟩
  · rw [ht.1]; exact toList_length_le_one _
  · rw [ht.2.1]; exact toList_length_le_one _
  · rw [ht.2.2]; exact toList_length_le_one _
  · intro buildingId devices
    obtain ⟨h1, h2, h3, _, _, _⟩ := showModal_tracked els auth
      ((modalRun els auth events).calls + 1) buildingId (modalRun els auth events).modal devices ht
    rw [hopen]
    exact ⟨h1, by rw [h2]; rfl, by rw [h3]; rfl⟩
  · intro buildingId devices
    obtain ⟨_, h2, h3, _, _, _⟩ := showModal_tracked els auth
      ((modalRun els auth events).calls + 1) buildingId (modalRun els auth events).modal devices ht
    have hsplit : ∀ e : ModalEvent,
        modalRun els auth (events ++ [.opened buildingId devices, e]) =
          modalStep els auth (modalRun els auth (events ++ [.opened buildingId devices])) e := by
      intro e
      unfold modalRun
      rw [List.foldl_append, List.foldl_append]
      rfl
    constructor
    · rw [hsplit]
      show clickCancel _ = _
      unfold clickCancel
      rw [hopen, h2]
      rfl
    · rw [hsplit]
      show clickClose _ = _
      unfold clickClose
      rw [hopen, h3]
      rfl

/-! ### HTML escaping -/

theorem strOr_some_empty (s : String) : strOr (some s) "" = s := by
  unfold strOr
  by_cases h : s = ""
  · simp [h]
  · simp [h]

theorem escapeChar_cases (c : Char) :
    escapeChar c = "&amp;".data ∨ escapeChar c = "&lt;".data ∨ escapeChar c = "&gt;".data ∨
    escapeChar c = "&quot;".data ∨ escapeChar c = "&#39;".data ∨
    (escapeChar c = [c] ∧ isHtmlSpecial c = false) := by
  unfold escapeChar
  by_cases h1 : c = '&'
  · simp [h1]
  · by_cases h2 : c = '<'
    · simp [h2]
    · by_cases h3 : c = '>'
      · simp [h3]
      · by_cases h4 : c = Char.ofNat 34
        · right; right; right; left
          rw [if_neg h1, if_neg h2, if_neg h3, if_pos h4]
        · by_cases h5 : c = Char.ofNat 39
          · right; right; right; right; left
            rw [if_neg h1, if_neg h2, if_neg h3, if_neg h4, if_pos h5]
          · right; right; right; right; right
            rw [if_neg h1, if_neg h2, if_neg h3, if_neg h4, if_neg h5]
            exact ⟨rfl, by simp [isHtmlSpecial, h1, h2, h3, h4, h5]⟩

theorem escapeChar_clean (c x : Char) (hx : x ∈ escapeChar c) :
    x ≠ '<' ∧ x ≠ '>' ∧ x ≠ Char.ofNat 34 ∧ x ≠ Char.ofNat 39 := by
  rcases escapeChar_cases c with h | h | h | h | h | ⟨h, hs⟩
  · rw [h] at hx
    simp only [List.mem_cons, List.mem_singleton, List.not_mem_nil, or_false] at hx
    rcases hx with rfl | rfl | rfl | rfl | rfl <;> decide
  · rw [h] at hx
    simp only [List.mem_cons, List.mem_singleton, List.not_mem_nil, or_false] at hx
    rcases hx with rfl | rfl | rfl | rfl <;> decide
  · rw [h] at hx
    simp only [List.mem_cons, List.mem_singleton, List.not_mem_nil, or_false] at hx
    rcases hx with rfl | rfl | rfl | rfl <;> decide
  · rw [h] at hx
    simp only [List.mem_cons, List.mem_singleton, List.not_mem_nil, or_false] at hx
    rcases hx with rfl | rfl | rfl | rfl | rfl | rfl <;> decide
  · rw [h] at hx
    simp only [List.mem_cons, List.mem_singleton, List.not_mem_nil, or_false] at hx
    rcases hx with rfl | rfl | rfl | rfl | rfl <;> decide
  · rw [h] at hx
    simp only [List.mem_singleton] at hx
    subst hx
    simp only [isHtmlSpecial, Bool.or_eq_false_iff, decide_eq_false_iff_not] at hs
    exact ⟨hs.1.1.1.2, hs.1.1.2, hs.1.2, hs.2⟩

theorem amp_begins_entity (l : List Char) (t : List Char)
    (ht : t <:+ l.flatMap escapeChar) (hhead : t.head? = some '&') :
    ∃ e ∈ htmlEntities, e <+: t := by
  induction l with
  | nil =>
    have hnil : t = [] := by simpa using ht
    rw [hnil] at hhead
    cases hhead
  | cons c cs ih =>
    rw [List.flatMap_cons] at ht
    rcases escapeChar_cases c with h | h | h | h | h | ⟨h, hs⟩
    · rw [h] at ht
      simp only [List.cons_append, List.nil_append, List.suffix_cons_iff] at ht
      rcases ht with rfl | rfl | rfl | rfl | rfl | ht
      · exact ⟨"&amp;".data, by simp [htmlEntities], ⟨_, rfl⟩⟩
      · exact absurd (Option.some.inj hhead) (by decide)
      · exact absurd (Option.some.inj hhead) (by decide)
      · exact absurd (Option.some.inj hhead) (by decide)
      · exact absurd (Option.some.inj hhead) (by decide)
      · exact ih ht
    · rw [h] at ht
      simp only [List.cons_append, List.nil_append, List.suffix_cons_iff] at ht
      rcases ht with rfl | rfl | rfl | rfl | ht
      · exact ⟨"&lt;".data, by simp [htmlEntities], ⟨_, rfl⟩⟩
      · exact absurd (Option.some.inj hhead) (by decide)
      · exact absurd (Option.some.inj hhead) (by decide)
      · exact absurd (Option.some.inj hhead) (by decide)
      · exact ih ht
    · rw [h] at ht
      simp only [List.cons_append, List.nil_append, List.suffix_cons_iff] at ht
      rcases ht with rfl | rfl | rfl | rfl | ht
      · exact ⟨"&gt;".data, by simp [htmlEntities], ⟨_, rfl⟩⟩
      · exact absurd (Option.some.inj hhead) (by decide)
      · exact absurd (Option.some.inj hhead) (by decide)
      · exact absurd (Option.some.inj hhead) (by decide)
      · exact ih ht
    · rw [h] at ht
      simp only [List.cons_append, List.nil_append, List.suffix_cons_iff] at ht
      rcases ht with rfl | rfl | rfl | rfl | rfl | rfl | ht
      · exact ⟨"&quot;".data, by simp [htmlEntities], ⟨_, rfl⟩⟩
      · exact absurd (Option.some.inj hhead) (by decide)
      · exact absurd (Option.some.inj hhead) (by decide)
      · exact absurd (Option.some.inj hhead) (by decide)
      · exact absurd (Option.some.inj hhead) (by decide)
      · exact absurd (Option.some.inj hhead) (by decide)
      · exact ih ht
    · rw [h] at ht
      simp only [List.cons_append, List.nil_append, List.suffix_cons_iff] at ht
      rcases ht with rfl | rfl | rfl | rfl | rfl | ht
      · exact ⟨"&#39;".data, by simp [htmlEntities], ⟨_, rfl⟩⟩
      · exact absurd (Option.some.inj hhead) (by decide)
      · exact absurd (Option.some.inj hhead) (by decide)
      · exact absurd (Option.some.inj hhead) (by decide)
      · exact absurd (Option.some.inj hhead) (by decide)
      · exact ih ht
    · rw [h] at ht
      simp only [List.cons_append, List.nil_append, List.suffix_cons_iff] at ht
      rcases ht with rfl | ht
      · simp only [List.head?_cons, Option.some.injEq] at hhead
        subst hhead
        exact absurd hs (by decide)
      · exact ih ht

theorem flatMap_escapeChar_plain (l : List Char) (h : ∀ c ∈ l, isHtmlSpecial c = false) :
    l.flatMap escapeChar = l := by
  induction l with
  | nil => rfl
  | cons c cs ih =>
    have hc := h c (by simp)
    have hstep : escapeChar c = [c] := by
      rcases escapeChar_cases c with h1 | h1 | h1 | h1 | h1 | ⟨h1, _⟩
      all_goals first
        | exact h1
        | (exfalso
           unfold escapeChar at h1
           simp only [isHtmlSpecial, Bool.or_eq_false_iff, decide_eq_false_iff_not] at hc
           simp [hc.1.1.1.1, hc.1.1.1.2, hc.1.1.2, hc.1.2, hc.2] at h1)
    rw [List.flatMap_cons, hstep, ih (fun x hx => h x (by simp [hx]))]
    rfl

/-- C20: for every string `s`, `escapeHtml(s)` contains none of the characters
`<`, `>`, the double quote and the apostrophe; every `&` in it begins one of
the five entities `&amp;` `&lt;` `&gt;` `&quot;` `&#39;`; and `escapeHtml(s)`
is `s` itself when `s` contains none of the five replaced characters. -/
theorem escapeHtml_safe (s : String) :
    ('<' ∉ (escapeHtml (some s)).data ∧ '>' ∉ (escapeHtml (some s)).data ∧
      Char.ofNat 34 ∉ (escapeHtml (some s)).data ∧
      Char.ofNat 39 ∉ (escapeHtml (some s)).data) ∧
    (∀ t : List Char, t <:+ (escapeHtml (some s)).data → t.head? = some '&' →
      ∃ e ∈ htmlEntities, e <+: t) ∧
    ((∀ c ∈ s.data, isHtmlSpecial c = false) → escapeHtml (some s) = s) := by
  have hdata : (escapeHtml (some s)).data = s.data.flatMap escapeChar := by
    unfold escapeHtml
    rw [strOr_some_empty]
  have hclean : ∀ x ∈ (escapeHtml (some s)).data,
      x ≠ '<' ∧ x ≠ '>' ∧ x ≠ Char.ofNat 34 ∧ x ≠ Char.ofNat 39 := by
    intro x hx
    rw [hdata] at hx
    obtain ⟨c, _, hxc⟩ := List.mem_flatMap.mp hx
    exact escapeChar_clean c x hxc
  refine ⟨⟨?_, ?_, ?_, ?_⟩, ?_, ?_⟩
  · exact fun h => (hclean _ h).1 rfl
  · exact fun h => (hclean _ h).2.1 rfl
  · exact fun h => (hclean _ h).2.2.1 rfl
  · exact fun h => (hclean _ h).2.2.2 rfl
  · intro t ht hhead
    rw [hdata] at ht
    exact amp_begins_entity s.data t ht hhead
  · intro hplain
    apply String.ext
    rw [hdata]
    exact flatMap_escapeChar_plain s.data hplain

end AmazonDvc
